import Mathlib

/-!
Shallow embedding of the GPS stability / corridor intelligence core
(lib/gps-processing.ts, lib/baseline-computation.ts, lib/alert-service.ts,
app/api/heatmap/route.ts ingestion POST).

JS numbers are modelled as rationals, JS Date values as integer epoch
milliseconds.  The external geometry libraries (h3-js latLngToCell and
turf distance / bearing) are not code of this repository; they are
modelled as an abstract record of functions `GeoLib` passed to
`extractCorridors`, exactly where the source calls into them.
-/

namespace GPSCorridor

/-- One positional sample (interface GPSFix, lib/gps-processing.ts). -/
structure GPSFix where
  ts : ℤ
  lat : ℚ
  lon : ℚ
  speed : Option ℚ
  accuracy : Option ℚ
  heading : Option ℚ
deriving DecidableEq, Repr

/-- Drop reason tags (interface Drop.reason). -/
inductive DropReason where
  | weak_signal
  | long_gap
  | micro_drop
deriving DecidableEq, Repr

/-- A detected signal-loss interval (interface Drop). -/
structure Drop where
  startTs : ℤ
  endTs : ℤ
  startLat : ℚ
  startLon : ℚ
  endLat : ℚ
  endLon : ℚ
  durationSec : ℚ
  reason : DropReason
deriving DecidableEq, Repr

/-- Corridor identity (interface CorridorKey). -/
structure CorridorKey where
  aH3 : String
  bH3 : String
  direction : ℤ
deriving DecidableEq, Repr

/-- One observed transit of a corridor (interface Traversal). -/
structure Traversal where
  corridorKey : CorridorKey
  startTs : ℤ
  endTs : ℤ
  travelSec : ℚ
  avgSpeedKmh : ℚ
  startLat : ℚ
  startLon : ℚ
  endLat : ℚ
  endLon : ℚ
deriving DecidableEq, Repr

/-- Ordering of fixes by timestamp, the comparator of
`points.sort((a, b) => a.ts.getTime() - b.ts.getTime())`. -/
def fixLe (a b : GPSFix) : Prop := a.ts ≤ b.ts

instance : DecidableRel fixLe := fun a b => inferInstanceAs (Decidable (a.ts ≤ b.ts))

instance : IsTotal GPSFix fixLe := ⟨fun a b => Int.le_total a.ts b.ts⟩

instance : IsTrans GPSFix fixLe := ⟨fun _ _ _ h₁ h₂ => le_trans h₁ h₂⟩

/-- Stable sort of the fixes by timestamp.  The JS engine's Array.sort is
stable (ES2019), and a stable sort under a total preorder has a unique
result, so any stable sort is a faithful model; we use insertion sort. -/
def sortFixes (points : List GPSFix) : List GPSFix :=
  List.insertionSort fixLe points

/-- Numeric ascending sort, the `values.sort((a, b) => a - b)` idiom. -/
def numSort (values : List ℚ) : List ℚ :=
  List.insertionSort (fun a b : ℚ => a ≤ b) values

/-- Median (function median, lib/gps-processing.ts). -/
def median (values : List ℚ) : ℚ :=
  if values.length = 0 then 0
  else
    let sorted := numSort values
    let mid := values.length / 2
    if values.length % 2 = 0 then
      (sorted.getD (mid - 1) 0 + sorted.getD mid 0) / 2
    else
      sorted.getD mid 0

/-- Percentile (function percentile, lib/gps-processing.ts):
index = ceil((p / 100) * n) - 1, clamped below at 0. -/
def percentile (values : List ℚ) (p : ℚ) : ℚ :=
  if values.length = 0 then 0
  else
    let sorted := numSort values
    let index : ℤ := ⌈(p / 100) * (values.length : ℚ)⌉ - 1
    sorted.getD (max 0 index).toNat 0

/-- UTC hour of day from epoch milliseconds (function getHourBucket /
Date.prototype.getUTCHours). -/
def getHourBucket (tsMs : ℤ) : ℤ :=
  (tsMs.fdiv 3600000).emod 24

/-- Gaps under 300 s between consecutive sorted fixes, the input to the
modal-interval estimate in detectDrops. -/
def gapsUnder300 (sorted : List GPSFix) : List ℚ :=
  ((sorted.zip sorted.tail).map
    (fun pc => (((pc.2.ts - pc.1.ts : ℤ) : ℚ)) / 1000)).filter
    (fun gap => decide (0 < gap ∧ gap < 300))

/-- Modal sampling interval of detectDrops (median-position element of the
sorted small gaps, defaulting to 30).  Computed by the source but never
used by the classification path. -/
def modalInterval (sorted : List GPSFix) : ℚ :=
  let gaps := gapsUnder300 sorted
  if 0 < gaps.length then (numSort gaps).getD (gaps.length / 2) 0 else 30

/-- dropThreshold = max(tauShort, modalInterval * 2).  Dead code in the
source: detectDrops computes it but classifies off tauShort alone. -/
def dropThreshold (sorted : List GPSFix) (tauShort : ℚ) : ℚ :=
  max tauShort (modalInterval sorted * 2)

/-- Classification chain of detectDrops (lib/gps-processing.ts):
long_gap above 600 s, micro_drop at or below tauShort * 1.2, else
weak_signal. -/
def classifyGap (gapSec tauShort : ℚ) : DropReason :=
  if 600 < gapSec then DropReason.long_gap
  else if gapSec ≤ tauShort * (6 / 5) then DropReason.micro_drop
  else DropReason.weak_signal

/-- The Drop record pushed by detectDrops for a consecutive pair. -/
def mkDrop (prev curr : GPSFix) (gapSec tauShort : ℚ) : Drop :=
  ⟨prev.ts, curr.ts, prev.lat, prev.lon, curr.lat, curr.lon, gapSec,
    classifyGap gapSec tauShort⟩

/-- The emission loop of detectDrops over the sorted fixes: for each
consecutive pair whose gap exceeds tauShort, push a Drop. -/
def emitDrops (tauShort : ℚ) : List GPSFix → List Drop
  | [] => []
  | [_] => []
  | prev :: curr :: rest =>
    let gapSec : ℚ := ((curr.ts - prev.ts : ℤ) : ℚ) / 1000
    (if tauShort < gapSec then [mkDrop prev curr gapSec tauShort] else []) ++
      emitDrops tauShort (curr :: rest)

/-- detectDrops (lib/gps-processing.ts): fewer than two points yield no
drops; otherwise the points are sorted by timestamp and consecutive
gaps above tauShort are emitted and classified. -/
def detectDrops (points : List GPSFix) (tauShort : ℚ) : List Drop :=
  if points.length < 2 then []
  else emitDrops tauShort (sortFixes points)

/-- Truncation toward zero, the rounding of the JS % operator. -/
def ratTrunc (q : ℚ) : ℤ :=
  if 0 ≤ q then ⌊q⌋ else ⌈q⌉

/-- The JS % (remainder) operator on numbers: a - b * trunc(a / b). -/
def jsFmod (a b : ℚ) : ℚ :=
  a - b * (ratTrunc (a / b) : ℚ)

/-- External geometry libraries used by extractCorridors: h3-js
latLngToCell (lat, lon, resolution), turf bearing and turf distance
(each on from-point (lat, lon) then to-point (lat, lon)).  They are
third-party packages, not code of this repository, so they are kept
abstract. -/
structure GeoLib where
  latLngToCell : ℚ → ℚ → ℕ → String
  bearingDeg : ℚ → ℚ → ℚ → ℚ → ℚ
  distanceKm : ℚ → ℚ → ℚ → ℚ → ℚ

/-- Bearing normalized to a 16-way bucket as in extractCorridors:
normalized = (bearing + 360) % 360, bucket = floor(normalized / 22.5) % 16. -/
def directionBucketOf (bearingValue : ℚ) : ℤ :=
  let normalizedBearing := jsFmod (bearingValue + 360) 360
  Int.tmod ⌊normalizedBearing / (45 / 2)⌋ 16

/-- Average speed computed by extractCorridors:
distance / (duration / 3600) when the duration is positive, else 0. -/
def avgSpeedOf (distKm durationSec : ℚ) : ℚ :=
  if 0 < durationSec then distKm / (durationSec / 3600) else 0

/-- extractCorridors (lib/gps-processing.ts).  Per drop: skip long_gap
drops (the source comment: process weak_signal and micro_drops), resolve
both endpoints to spatial cells, bucket the bearing, compute distance and
average speed, then apply the quality filters (skip when distance is
below 0.01 km or speed exceeds 200 km/h) and push a Traversal.  The
declared sameCell counter of the source is never incremented and no
aH3 = bH3 filter exists. -/
def extractCorridors (geo : GeoLib) (drops : List Drop)
    (h3Resolution : ℕ) : List Traversal :=
  drops.foldr
    (fun drop acc =>
      if drop.reason = DropReason.long_gap then acc
      else
        let aH3 := geo.latLngToCell drop.startLat drop.startLon h3Resolution
        let bH3 := geo.latLngToCell drop.endLat drop.endLon h3Resolution
        let directionBucket :=
          directionBucketOf
            (geo.bearingDeg drop.startLat drop.startLon drop.endLat drop.endLon)
        let distKm :=
          geo.distanceKm drop.startLat drop.startLon drop.endLat drop.endLon
        let avgSpeedKmh := avgSpeedOf distKm drop.durationSec
        if distKm < 1 / 100 then acc
        else if 200 < avgSpeedKmh then acc
        else
          ⟨⟨aH3, bH3, directionBucket⟩, drop.startTs, drop.endTs,
            drop.durationSec, avgSpeedKmh, drop.startLat, drop.startLon,
            drop.endLat, drop.endLon⟩ :: acc)
    []

/-- Per-corridor baseline row (interface CorridorBaseline,
lib/baseline-computation.ts); bucketHour is -1 for the global bucket. -/
structure CorridorBaseline where
  corridorId : String
  bucketHour : ℤ
  count : ℕ
  medianTravelSec : ℚ
  p95SpeedKmh : ℚ
deriving DecidableEq, Repr

/-- The slice of a Traversal consumed by computeBaselines
(interface TraversalData). -/
structure TraversalData where
  travelSec : ℚ
  avgSpeedKmh : ℚ
  startTs : ℤ
deriving DecidableEq, Repr

/-- Keys of a list in order of first occurrence: the iteration order of a
JS Map populated by insertion. -/
def firstOccur {α : Type} [DecidableEq α] : List α → List α
  | [] => []
  | h :: t => h :: firstOccur (t.filter (fun x => decide (x ≠ h)))
termination_by l => l.length
decreasing_by
  simp only [List.length_cons]
  exact Nat.lt_succ_of_le (List.length_filter_le _ _)

/-- The traversals of one hour bucket. -/
def hourBucketOf (traversals : List TraversalData) (h : ℤ) :
    List TraversalData :=
  traversals.filter (fun t => decide (getHourBucket t.startTs = h))

/-- The baseline row computeBaselines pushes for a bucket (Math.round on
the median travel time, p95 on the speeds). -/
def mkBaseline (corridorId : String) (bucketHour : ℤ)
    (bucket : List TraversalData) : CorridorBaseline :=
  ⟨corridorId, bucketHour, bucket.length,
    (round (median (bucket.map (fun t => t.travelSec))) : ℤ),
    percentile (bucket.map (fun t => t.avgSpeedKmh)) 95⟩

/-- The hourly loop of computeBaselines: for each hour bucket in Map
insertion order, emit a baseline when it reaches minSamplesForHourly. -/
def hourlyBaselinesOf (corridorId : String)
    (traversals : List TraversalData) (minSamplesForHourly : ℕ) :
    List CorridorBaseline :=
  (firstOccur (traversals.map (fun t => getHourBucket t.startTs))).filterMap
    (fun h =>
      if minSamplesForHourly ≤ (hourBucketOf traversals h).length then
        some (mkBaseline corridorId h (hourBucketOf traversals h))
      else none)

/-- The global block of computeBaselines: one bucketHour -1 baseline
over all traversals whenever any exist. -/
def globalBaselineOf (corridorId : String)
    (traversals : List TraversalData) : List CorridorBaseline :=
  if 0 < traversals.length then [mkBaseline corridorId (-1) traversals]
  else []

/-- computeBaselines (lib/baseline-computation.ts): group the traversals
by UTC start hour (Map insertion order), emit an hourly baseline for each
bucket reaching minSamplesForHourly, then always append one global
baseline (bucketHour -1) over all traversals whenever any exist. -/
def computeBaselines (corridorId : String)
    (traversals : List TraversalData) (minSamplesForHourly : ℕ) :
    List CorridorBaseline :=
  hourlyBaselinesOf corridorId traversals minSamplesForHourly ++
    globalBaselineOf corridorId traversals

/-- getApplicableBaseline (lib/baseline-computation.ts): the hourly
baseline matching the timestamp's UTC hour if present, else the global
baseline, else none. -/
def getApplicableBaseline (baselines : List CorridorBaseline)
    (timestamp : ℤ) : Option CorridorBaseline :=
  let hour := getHourBucket timestamp
  match baselines.find? (fun b => decide (b.bucketHour = hour)) with
  | some hourlyBaseline => some hourlyBaseline
  | none => baselines.find? (fun b => decide (b.bucketHour = -1))

/-- Result of checkDelayAlert. -/
structure DelayCheck where
  isAlert : Bool
  deltaSec : ℚ
deriving DecidableEq, Repr

/-- checkDelayAlert (lib/baseline-computation.ts): delta is the travel
time minus the baseline median; alert when delta reaches
thresholdMinutes * 60. -/
def checkDelayAlert (travelSec : ℚ) (baseline : CorridorBaseline)
    (thresholdMinutes : ℚ) : DelayCheck :=
  let deltaSec := travelSec - baseline.medianTravelSec
  let thresholdSec := thresholdMinutes * 60
  ⟨decide (thresholdSec ≤ deltaSec), deltaSec⟩

/-- Result of checkOverspeedAlert. -/
structure OverspeedCheck where
  isAlert : Bool
  deltaSpeedKmh : ℚ
deriving DecidableEq, Repr

/-- checkOverspeedAlert (lib/baseline-computation.ts): delta is the speed
minus the baseline p95; alert when delta is positive and the p95 itself
is positive. -/
def checkOverspeedAlert (avgSpeedKmh : ℚ) (baseline : CorridorBaseline) :
    OverspeedCheck :=
  let deltaSpeedKmh := avgSpeedKmh - baseline.p95SpeedKmh
  ⟨decide (0 < deltaSpeedKmh ∧ 0 < baseline.p95SpeedKmh), deltaSpeedKmh⟩

/-- Alert types. -/
inductive AlertType where
  | delay
  | overspeed
deriving DecidableEq, Repr

/-- Alert severities. -/
inductive AlertSeverity where
  | low
  | medium
  | high
deriving DecidableEq, Repr

/-- getAlertSeverity (lib/gps-processing.ts): severity from the ratio of
the absolute delta to the threshold. -/
def getAlertSeverity (alertKind : AlertType) (deltaValue threshold : ℚ) :
    AlertSeverity :=
  let q := |deltaValue| / threshold
  if 2 ≤ q then AlertSeverity.high
  else if 3 / 2 ≤ q then AlertSeverity.medium
  else AlertSeverity.low

/-- A stored alert row (prisma model Alert as used by
lib/alert-service.ts); resolvedAt is none while unresolved. -/
structure Alert where
  alertKind : AlertType
  corridorId : String
  tripId : String
  vehicleId : String
  severity : AlertSeverity
  deltaValue : ℚ
  resolvedAt : Option ℤ
deriving DecidableEq, Repr

/-- Input of checkAndCreateAlerts (interface AlertInput,
lib/alert-service.ts). -/
structure AlertInput where
  corridorId : String
  tripId : String
  vehicleId : String
  travelSec : ℚ
  avgSpeedKmh : ℚ
  timestamp : ℤ
deriving DecidableEq, Repr

/-- The prisma.alert.findFirst deduplication predicate of
checkAndCreateAlerts: same type, trip, corridor, and still unresolved. -/
def matchesUnresolved (alertKind : AlertType) (tripId corridorId : String)
    (a : Alert) : Bool :=
  decide (a.alertKind = alertKind ∧ a.tripId = tripId ∧
    a.corridorId = corridorId ∧ a.resolvedAt = none)

/-- The delay block of checkAndCreateAlerts: when the delay check fires
and no unresolved delay alert exists for the trip and corridor, create
one with severity measured against delayThresholdMin * 60 seconds. -/
def delayAlertsOf (applicable : CorridorBaseline)
    (existingAlerts : List Alert) (input : AlertInput)
    (delayThresholdMin : ℚ) : List Alert :=
  let delayCheck := checkDelayAlert input.travelSec applicable delayThresholdMin
  if delayCheck.isAlert then
    match existingAlerts.find?
        (matchesUnresolved AlertType.delay input.tripId input.corridorId) with
    | some _ => []
    | none =>
      [⟨AlertType.delay, input.corridorId, input.tripId, input.vehicleId,
        getAlertSeverity AlertType.delay delayCheck.deltaSec
          (delayThresholdMin * 60),
        delayCheck.deltaSec, none⟩]
  else []

/-- The overspeed block of checkAndCreateAlerts: when the overspeed
check fires and no unresolved overspeed alert exists for the trip and
corridor, create one with severity measured against a 10 percent band
of the baseline p95 speed. -/
def overspeedAlertsOf (applicable : CorridorBaseline)
    (existingAlerts : List Alert) (input : AlertInput) : List Alert :=
  let overspeedCheck := checkOverspeedAlert input.avgSpeedKmh applicable
  if overspeedCheck.isAlert then
    match existingAlerts.find?
        (matchesUnresolved AlertType.overspeed input.tripId input.corridorId) with
    | some _ => []
    | none =>
      [⟨AlertType.overspeed, input.corridorId, input.tripId, input.vehicleId,
        getAlertSeverity AlertType.overspeed overspeedCheck.deltaSpeedKmh
          (applicable.p95SpeedKmh * (1 / 10)),
        overspeedCheck.deltaSpeedKmh, none⟩]
  else []

/-- checkAndCreateAlerts (lib/alert-service.ts), with the database made
explicit: baselines are the corridorStats rows of the input's corridor
and existingAlerts the alert table.  Returns the list of alerts created
(delay first, then overspeed), each created only when its check fires
and no unresolved alert with the same (type, tripId, corridorId)
already exists. -/
def checkAndCreateAlerts (baselines : List CorridorBaseline)
    (existingAlerts : List Alert) (input : AlertInput)
    (delayThresholdMin : ℚ) : List Alert :=
  if baselines.length = 0 then []
  else
    match getApplicableBaseline baselines input.timestamp with
    | none => []
    | some applicable =>
      delayAlertsOf applicable existingAlerts input delayThresholdMin ++
        overspeedAlertsOf applicable existingAlerts input

/-- The alert table after one checkAndCreateAlerts run: prisma only
appends the created rows, existing rows are untouched. -/
def applyAlerts (baselines : List CorridorBaseline)
    (existingAlerts : List Alert) (input : AlertInput)
    (delayThresholdMin : ℚ) : List Alert :=
  existingAlerts ++ checkAndCreateAlerts baselines existingAlerts input delayThresholdMin

/-- One raw point of an ingestion batch (GPS_POINT_SCHEMA,
app/api/heatmap/route.ts ingest POST), with its timestamp still a
string. -/
structure RawPoint where
  vehicleId : String
  tripId : Option String
  ts : String
  lat : ℚ
  lon : ℚ
  speed : Option ℚ
  accuracy : Option ℚ
  heading : Option ℚ
deriving DecidableEq, Repr

/-- Zod validation of one point: lat within [-90, 90], lon within
[-180, 180], timestamp parsable.  Timestamp parsing (z.string().datetime
and new Date) is the JS runtime's, modelled by the abstract parseTs. -/
def validPoint (parseTs : String → Option ℤ) (p : RawPoint) : Bool :=
  decide (-90 ≤ p.lat ∧ p.lat ≤ 90 ∧ -180 ≤ p.lon ∧ p.lon ≤ 180) &&
    (parseTs p.ts).isSome

/-- Errors of the ingest POST handler. -/
inductive IngestError where
  | validationError
  | noPoints
deriving DecidableEq, Repr

/-- Stored trip row (prisma model Trip as used by the ingest route). -/
structure TripRec where
  id : String
  vehicleId : String
  startTime : ℤ
  endTime : ℤ
  source : String
deriving DecidableEq, Repr

/-- Stored GPS point row. -/
structure PointRec where
  tripId : String
  ts : ℤ
  lat : ℚ
  lon : ℚ
  speed : Option ℚ
  accuracy : Option ℚ
  heading : Option ℚ
deriving DecidableEq, Repr

/-- Stored drop row. -/
structure DropRec where
  tripId : String
  startTs : ℤ
  endTs : ℤ
  startLat : ℚ
  startLon : ℚ
  endLat : ℚ
  endLon : ℚ
  durationSec : ℚ
  reason : DropReason
deriving DecidableEq, Repr

/-- Stored traversal row. -/
structure TravRec where
  corridorId : String
  tripId : String
  startTs : ℤ
  endTs : ℤ
  travelSec : ℚ
  avgSpeedKmh : ℚ
  startLat : ℚ
  startLon : ℚ
  endLat : ℚ
  endLon : ℚ
deriving DecidableEq, Repr

/-- The database state touched by the ingest route.  Corridor rows are
identified by their unique (aH3, bH3, direction) key, rendered as a
string id. -/
structure DBState where
  vehicles : List String
  trips : List TripRec
  gpsPoints : List PointRec
  drops : List DropRec
  corridors : List CorridorKey
  traversals : List TravRec
  corridorStats : List CorridorBaseline
  alerts : List Alert
  nextTripId : ℕ
deriving DecidableEq, Repr

/-- Per-trip summary returned by the ingest route. -/
structure IngestResult where
  tripId : String
  vehicleId : String
  pointsProcessed : ℕ
  dropsDetected : ℕ
  corridorsTraversed : ℕ
deriving DecidableEq, Repr

/-- String id of a corridor row, standing in for the generated primary
key; the corridor table is unique on (aH3, bH3, direction). -/
def corridorIdOf (k : CorridorKey) : String :=
  k.aH3 ++ "|" ++ k.bH3 ++ "|" ++ toString k.direction

/-- Placeholder raw point for total head and last accesses on lists the
route has already checked to be long enough. -/
def dummyRaw : RawPoint :=
  ⟨"", none, "", 0, 0, none, none, none⟩

/-- Stable sort of one vehicle's points by parsed timestamp, the
comparator new Date(a.ts) - new Date(b.ts). -/
def sortRawPoints (parseTs : String → Option ℤ) (pts : List RawPoint) :
    List RawPoint :=
  @List.insertionSort RawPoint
    (fun a b => ((parseTs a.ts).getD 0) ≤ ((parseTs b.ts).getD 0))
    (fun a b => Int.decLe _ _) pts

/-- Trip segmentation of the ingest route: a new trip begins when the
gap from the previous point exceeds TRIP_GAP_MINUTES = 20 minutes. -/
def segmentTrips (parseTs : String → Option ℤ) (sorted : List RawPoint) :
    List (List RawPoint) :=
  let final :=
    sorted.foldl
      (fun (acc : List (List RawPoint) × List RawPoint) p =>
        match acc with
        | (trips, []) => (trips, [p])
        | (trips, current) =>
          let lastTs := (parseTs (current.getLastD dummyRaw).ts).getD 0
          let gapMinutes : ℚ :=
            (((parseTs p.ts).getD 0 - lastTs : ℤ) : ℚ) / 60000
          if 20 < gapMinutes then (trips ++ [current], [p])
          else (trips, current ++ [p]))
      ([], [])
  if final.2.length = 0 then final.1 else final.1 ++ [final.2]

/-- Conversion of a validated raw point to a GPSFix for detectDrops. -/
def toGPSFix (parseTs : String → Option ℤ) (p : RawPoint) : GPSFix :=
  ⟨(parseTs p.ts).getD 0, p.lat, p.lon, p.speed, p.accuracy, p.heading⟩

/-- Upsert of one corridorStats row on the unique
(corridorId, bucketHour) key (prisma.corridorStats.upsert). -/
def upsertStat (stats : List CorridorBaseline) (b : CorridorBaseline) :
    List CorridorBaseline :=
  if stats.any (fun s =>
      decide (s.corridorId = b.corridorId ∧ s.bucketHour = b.bucketHour)) then
    stats.map (fun s =>
      if s.corridorId = b.corridorId ∧ s.bucketHour = b.bucketHour then b
      else s)
  else stats ++ [b]

/-- updateCorridorBaselines (app/api/heatmap/route.ts): recompute the
corridor's baselines from all its stored traversals (default
minSamplesForHourly 5) and upsert every row. -/
def updateCorridorBaselines (db : DBState) (corridorId : String) : DBState :=
  let travs :=
    (db.traversals.filter (fun t => decide (t.corridorId = corridorId))).map
      (fun t => (⟨t.travelSec, t.avgSpeedKmh, t.startTs⟩ : TraversalData))
  if travs.length = 0 then db
  else
    let baselines := computeBaselines corridorId travs 5
    { db with corridorStats := baselines.foldl upsertStat db.corridorStats }

/-- Processing of one extracted traversal by the ingest route: find or
create the corridor row, store the traversal, recompute the corridor's
baselines, then run the alert checks against the corridor's stats. -/
def processTraversal (delayThr : ℚ) (tripId vehicleId : String)
    (db : DBState) (t : Traversal) : DBState :=
  let db₁ :=
    if db.corridors.contains t.corridorKey then db
    else { db with corridors := db.corridors ++ [t.corridorKey] }
  let cid := corridorIdOf t.corridorKey
  let db₂ :=
    { db₁ with
      traversals := db₁.traversals ++
        [⟨cid, tripId, t.startTs, t.endTs, t.travelSec, t.avgSpeedKmh,
          t.startLat, t.startLon, t.endLat, t.endLon⟩] }
  let db₃ := updateCorridorBaselines db₂ cid
  let corridorBaselines :=
    db₃.corridorStats.filter (fun b => decide (b.corridorId = cid))
  let created :=
    checkAndCreateAlerts corridorBaselines db₃.alerts
      ⟨cid, tripId, vehicleId, t.travelSec, t.avgSpeedKmh, t.startTs⟩ delayThr
  { db₃ with alerts := db₃.alerts ++ created }

/-- Processing of one segmented trip of at least two points by the
ingest route: find or create the trip row (extending endTime when
found), store the points, detect and store drops, extract corridors and
process each traversal. -/
def processTrip (geo : GeoLib) (parseTs : String → Option ℤ)
    (tauShort : ℚ) (h3Res : ℕ) (delayThr : ℚ) (vehicleId : String)
    (tripPoints : List RawPoint) (db : DBState) : DBState × IngestResult :=
  let startTime := (parseTs (tripPoints.headD dummyRaw).ts).getD 0
  let endTime := (parseTs (tripPoints.getLastD dummyRaw).ts).getD 0
  let found : Option TripRec :=
    match (tripPoints.headD dummyRaw).tripId with
    | some tid => db.trips.find? (fun (t : TripRec) => decide (t.id = tid))
    | none => none
  let pair : String × DBState :=
    match found with
    | some t =>
      (t.id,
        { db with
          trips := db.trips.map (fun (u : TripRec) =>
            if u.id = t.id then { u with endTime := endTime } else u) })
    | none =>
      let tid := "trip-" ++ toString db.nextTripId
      (tid,
        { db with
          trips := db.trips ++
            [⟨tid, vehicleId, startTime, endTime, "api_ingest"⟩],
          nextTripId := db.nextTripId + 1 })
  let tripId := pair.1
  let db₁ := pair.2
  let db₂ :=
    { db₁ with
      gpsPoints := db₁.gpsPoints ++ tripPoints.map (fun (p : RawPoint) =>
        (⟨tripId, (parseTs p.ts).getD 0, p.lat, p.lon, p.speed, p.accuracy,
          p.heading⟩ : PointRec)) }
  let gpsFixes := tripPoints.map (toGPSFix parseTs)
  let drops := detectDrops gpsFixes tauShort
  let db₃ :=
    { db₂ with
      drops := db₂.drops ++ drops.map (fun (d : Drop) =>
        (⟨tripId, d.startTs, d.endTs, d.startLat, d.startLon, d.endLat,
          d.endLon, d.durationSec, d.reason⟩ : DropRec)) }
  let traversals := extractCorridors geo drops h3Res
  let db₄ := traversals.foldl (processTraversal delayThr tripId vehicleId) db₃
  (db₄, ⟨tripId, vehicleId, tripPoints.length, drops.length, traversals.length⟩)

/-- The ingest POST handler (app/api/heatmap/route.ts): validate the
whole batch up front (any invalid point rejects the batch before any
state is touched), reject empty batches, then group the points by
vehicle in first-appearance order, sort each group by timestamp,
segment into trips at gaps above 20 minutes, and run the per-trip
pipeline on every trip of at least two points. -/
def ingestPOST (geo : GeoLib) (parseTs : String → Option ℤ)
    (tauShort : ℚ) (h3Res : ℕ) (delayThr : ℚ)
    (points : List RawPoint) (db : DBState) :
    Except IngestError (DBState × List IngestResult) :=
  if points.any (fun p => !(validPoint parseTs p)) then
    Except.error IngestError.validationError
  else if points.length = 0 then
    Except.error IngestError.noPoints
  else
    Except.ok
      ((firstOccur (points.map (fun p => p.vehicleId))).foldl
        (fun (acc : DBState × List IngestResult) vehicleName =>
          let db₀ := acc.1
          let db₁ :=
            if db₀.vehicles.contains vehicleName then db₀
            else { db₀ with vehicles := db₀.vehicles ++ [vehicleName] }
          let vehiclePoints :=
            points.filter (fun p => decide (p.vehicleId = vehicleName))
          let sorted := sortRawPoints parseTs vehiclePoints
          let trips := segmentTrips parseTs sorted
          trips.foldl
            (fun (acc2 : DBState × List IngestResult) tripPoints =>
              if tripPoints.length < 2 then acc2
              else
                let pr := processTrip geo parseTs tauShort h3Res delayThr
                  vehicleName tripPoints acc2.1
                (pr.1, acc2.2 ++ [pr.2]))
            (db₁, acc.2))
        (db, []))

/-- The ingest POST as the caller observes it: the database after the
call together with the error, if any; a thrown validation error leaves
the database untouched. -/
def runIngest (geo : GeoLib) (parseTs : String → Option ℤ)
    (tauShort : ℚ) (h3Res : ℕ) (delayThr : ℚ)
    (points : List RawPoint) (db : DBState) : DBState × Option IngestError :=
  match ingestPOST geo parseTs tauShort h3Res delayThr points db with
  | Except.error e => (db, some e)
  | Except.ok res => (res.1, none)

/-! Theorems. -/

/-- Every drop emitted by the detection loop has a duration above the
threshold and carries the classification of its duration. -/
theorem mem_emitDrops {tauShort : ℚ} {d : Drop} :
    ∀ {l : List GPSFix}, d ∈ emitDrops tauShort l →
      tauShort < d.durationSec ∧ d.reason = classifyGap d.durationSec tauShort := by
  intro l
  induction l with
  | nil => simp [emitDrops]
  | cons a t ih =>
    cases t with
    | nil => simp [emitDrops]
    | cons b r =>
      intro hd
      rw [emitDrops] at hd
      rcases List.mem_append.1 hd with h | h
      · by_cases hg : tauShort < ((b.ts - a.ts : ℤ) : ℚ) / 1000
        · rw [if_pos hg, List.mem_singleton] at h
          subst h
          exact ⟨hg, rfl⟩
        · rw [if_neg hg] at h
          exact absurd h (List.not_mem_nil d)
      · exact ih h

/-- Claim C1: every emitted GapEvent with gap duration g (necessarily
g above tauShort) is classified long_gap (extended) exactly when
g > 600; below that, micro_drop exactly when g ≤ tauShort * 1.2 and
weak_signal (transit) otherwise; with the default tauShort = 60 this is
micro for 60 < g ≤ 72, transit for 72 < g ≤ 600, extended for g > 600. -/
theorem detectDrops_classification (points : List GPSFix) (tauShort : ℚ)
    (d : Drop) (hd : d ∈ detectDrops points tauShort) :
    tauShort < d.durationSec ∧
    (d.reason = DropReason.long_gap ↔ 600 < d.durationSec) ∧
    (d.durationSec ≤ 600 →
      ((d.reason = DropReason.micro_drop ↔
          d.durationSec ≤ tauShort * (6 / 5)) ∧
       (d.reason = DropReason.weak_signal ↔
          tauShort * (6 / 5) < d.durationSec))) ∧
    (tauShort = 60 →
      ((d.reason = DropReason.micro_drop ↔
          60 < d.durationSec ∧ d.durationSec ≤ 72) ∧
       (d.reason = DropReason.weak_signal ↔
          72 < d.durationSec ∧ d.durationSec ≤ 600) ∧
       (d.reason = DropReason.long_gap ↔ 600 < d.durationSec))) := by
  unfold detectDrops at hd
  by_cases hlen : points.length < 2
  · simp [hlen] at hd
  · rw [if_neg hlen] at hd
    obtain ⟨hτ, hr⟩ := mem_emitDrops hd
    unfold classifyGap at hr
    refine ⟨hτ, ?_, ?_, ?_⟩
    · by_cases h6 : 600 < d.durationSec
      · rw [if_pos h6] at hr
        exact iff_of_true hr h6
      · rw [if_neg h6] at hr
        refine iff_of_false ?_ h6
        intro hlong
        rw [hlong] at hr
        by_cases hm : d.durationSec ≤ tauShort * (6 / 5)
        · rw [if_pos hm] at hr
          exact DropReason.noConfusion hr
        · rw [if_neg hm] at hr
          exact DropReason.noConfusion hr
    · intro h600
      have h6 : ¬ 600 < d.durationSec := not_lt.2 h600
      rw [if_neg h6] at hr
      by_cases hm : d.durationSec ≤ tauShort * (6 / 5)
      · rw [if_pos hm] at hr
        exact ⟨iff_of_true hr hm, iff_of_false (by simp [hr]) (not_lt.2 hm)⟩
      · rw [if_neg hm] at hr
        exact ⟨iff_of_false (by simp [hr]) hm, iff_of_true hr (not_le.1 hm)⟩
    · intro hτ60
      subst hτ60
      have h72 : (60 : ℚ) * (6 / 5) = 72 := by norm_num
      rw [h72] at hr
      by_cases h6 : 600 < d.durationSec
      · rw [if_pos h6] at hr
        refine ⟨iff_of_false (by simp [hr]) ?_, iff_of_false (by simp [hr]) ?_,
          iff_of_true hr h6⟩
        · rintro ⟨_, h2⟩
          linarith
        · rintro ⟨_, h2⟩
          linarith
      · rw [if_neg h6] at hr
        by_cases hm : d.durationSec ≤ 72
        · rw [if_pos hm] at hr
          refine ⟨iff_of_true hr ⟨hτ, hm⟩, iff_of_false (by simp [hr]) ?_,
            iff_of_false (by simp [hr]) h6⟩
          rintro ⟨h1, _⟩
          linarith
        · rw [if_neg hm] at hr
          refine ⟨iff_of_false (by simp [hr]) ?_,
            iff_of_true hr ⟨not_le.1 hm, not_lt.1 h6⟩,
            iff_of_false (by simp [hr]) h6⟩
          rintro ⟨_, h2⟩
          exact hm h2

/-- Fixture fixes for the C1 witness: two points 100 seconds apart. -/
def wfixA : GPSFix := ⟨0, 1, 1, none, none, none⟩

/-- Second fixture fix, 100 seconds after the first. -/
def wfixB : GPSFix := ⟨100000, 2, 2, none, none, none⟩

/-- The drop detectDrops emits for the two fixture fixes. -/
def wdropC1 : Drop := ⟨0, 100000, 1, 1, 2, 2, 100, DropReason.weak_signal⟩

/-- Evaluation of detectDrops on the two fixture fixes. -/
theorem wdropC1_eval : detectDrops [wfixA, wfixB] 60 = [wdropC1] := by
  norm_num [detectDrops, sortFixes, List.insertionSort, List.orderedInsert,
    fixLe, emitDrops, mkDrop, classifyGap, wfixA, wfixB, wdropC1]

/-- Witness for C1: the 100-second gap between the fixture fixes is
emitted and, per the theorem, classified transit (weak_signal) because
72 < 100 ≤ 600. -/
theorem detectDrops_classification_witness :
    wdropC1 ∈ detectDrops [wfixA, wfixB] 60 ∧
      (wdropC1.reason = DropReason.weak_signal ↔
        72 < wdropC1.durationSec ∧ wdropC1.durationSec ≤ 600) :=
  ⟨by simp [wdropC1_eval],
    ((detectDrops_classification [wfixA, wfixB] 60 wdropC1
      (by simp [wdropC1_eval])).2.2.2 rfl).2.1⟩

/-- Lists of fixes with pairwise distinct timestamps sort identically
under permutation: the sorted result is the unique strictly
ts-increasing arrangement. -/
theorem sortFixes_eq_of_perm (l l' : List GPSFix) (hp : l.Perm l')
    (hn : (l.map GPSFix.ts).Nodup) : sortFixes l = sortFixes l' := by
  have hstrict : ∀ (m : List GPSFix), List.Sorted fixLe m →
      (m.map GPSFix.ts).Nodup → m.Pairwise (fun a b => a.ts < b.ts) := by
    intro m hs hnm
    have hne : m.Pairwise (fun a b => a.ts ≠ b.ts) := (List.pairwise_map).1 hnm
    exact (hs.and hne).imp (fun h => lt_of_le_of_ne h.1 h.2)
  have h1 : (sortFixes l).Perm l := List.perm_insertionSort fixLe l
  have h2 : (sortFixes l').Perm l' := List.perm_insertionSort fixLe l'
  have hn' : (l'.map GPSFix.ts).Nodup := ((hp.map GPSFix.ts).nodup_iff).1 hn
  have hs1 : List.Sorted fixLe (sortFixes l) := List.sorted_insertionSort fixLe l
  have hs2 : List.Sorted fixLe (sortFixes l') := List.sorted_insertionSort fixLe l'
  have hn1 : ((sortFixes l).map GPSFix.ts).Nodup :=
    ((h1.map GPSFix.ts).nodup_iff).2 hn
  have hn2 : ((sortFixes l').map GPSFix.ts).Nodup :=
    ((h2.map GPSFix.ts).nodup_iff).2 hn'
  have hperm : (sortFixes l).Perm (sortFixes l') :=
    h1.trans (hp.trans h2.symm)
  haveI : IsAntisymm GPSFix (fun a b => a.ts < b.ts) :=
    ⟨fun a b h₁ h₂ => absurd (h₁.trans h₂) (lt_irrefl _)⟩
  exact List.eq_of_perm_of_sorted hperm (hstrict _ hs1 hn1) (hstrict _ hs2 hn2)

/-- Claim C10 (amended): detectDrops sorts internally, so its output is
identical for every permutation of the same fixes provided their
timestamps are pairwise distinct (with tied timestamps the stable sort
preserves input order, so permutations can differ); for every list with
fewer than 2 elements it returns the empty event list. -/
theorem detectDrops_perm_invariant :
    (∀ (l l' : List GPSFix) (tauShort : ℚ), l.Perm l' →
      (l.map GPSFix.ts).Nodup →
      detectDrops l tauShort = detectDrops l' tauShort) ∧
    (∀ (l : List GPSFix) (tauShort : ℚ), l.length < 2 →
      detectDrops l tauShort = []) := by
  constructor
  · intro l l' tauShort hp hn
    unfold detectDrops
    rw [hp.length_eq]
    by_cases h2 : l'.length < 2
    · simp [h2]
    · rw [if_neg h2, if_neg h2, sortFixes_eq_of_perm l l' hp hn]
  · intro l tauShort h
    simp [detectDrops, h]

/-- Fixture fix sharing its timestamp with wfixA but at another
position. -/
def tfixB : GPSFix := ⟨0, 5, 5, none, none, none⟩

/-- Fixture fix 100 seconds later. -/
def tfixC : GPSFix := ⟨100000, 9, 9, none, none, none⟩

/-- Output of detectDrops when wfixA precedes tfixB in the input: the
stable sort keeps tfixB second, so the gap starts at tfixB. -/
theorem tdropEvalAB :
    detectDrops [wfixA, tfixB, tfixC] 60 =
      [⟨0, 100000, 5, 5, 9, 9, 100, DropReason.weak_signal⟩] := by
  norm_num [detectDrops, sortFixes, List.insertionSort, List.orderedInsert,
    fixLe, emitDrops, mkDrop, classifyGap, wfixA, tfixB, tfixC]

/-- Output of detectDrops when tfixB precedes wfixA in the input: now
the gap starts at wfixA. -/
theorem tdropEvalBA :
    detectDrops [tfixB, wfixA, tfixC] 60 =
      [⟨0, 100000, 1, 1, 9, 9, 100, DropReason.weak_signal⟩] := by
  norm_num [detectDrops, sortFixes, List.insertionSort, List.orderedInsert,
    fixLe, emitDrops, mkDrop, classifyGap, wfixA, tfixB, tfixC]

/-- Counterexample for C10 as stated: two permutations of the same three
fixes (two of them sharing a timestamp) yield different outputs, so the
output is not identical for every permutation. -/
theorem detectDrops_perm_counterexample :
    ([wfixA, tfixB, tfixC].Perm [tfixB, wfixA, tfixC]) ∧
      detectDrops [wfixA, tfixB, tfixC] 60 ≠
        detectDrops [tfixB, wfixA, tfixC] 60 := by
  constructor
  · exact (List.Perm.swap wfixA tfixB [tfixC]).symm
  · rw [tdropEvalAB, tdropEvalBA]
    intro h
    have h5 : (5 : ℚ) = 1 := congrArg Drop.startLat (List.head_eq_of_cons_eq h)
    norm_num at h5

/-- Witness for the amended C10: on two permutations of two fixes with
distinct timestamps the outputs agree, and a singleton list yields no
events. -/
theorem detectDrops_perm_invariant_witness :
    detectDrops [wfixB, wfixA] 60 = detectDrops [wfixA, wfixB] 60 ∧
      detectDrops [wfixA] 60 = [] :=
  ⟨detectDrops_perm_invariant.1 [wfixB, wfixA] [wfixA, wfixB] 60
      (List.Perm.swap wfixA wfixB []) (by decide),
    detectDrops_perm_invariant.2 [wfixA] 60 (by decide)⟩

/-- Straight-line distance of a drop's endpoints as extractCorridors
computes it. -/
def dropDistanceKm (geo : GeoLib) (d : Drop) : ℚ :=
  geo.distanceKm d.startLat d.startLon d.endLat d.endLon

/-- Average speed of a drop as extractCorridors computes it. -/
def dropAvgSpeedKmh (geo : GeoLib) (d : Drop) : ℚ :=
  avgSpeedOf (dropDistanceKm geo d) d.durationSec

/-- Stated from the spec and the counterexample (amended claim C2): the
condition under which extractCorridors emits a Traversal for a drop:
the drop is not classified extended (long_gap) -- micro drops are
processed like transit ones -- and its endpoints are at least 0.01 km
apart and its average speed is at most 200 km/h. -/
def passesQualityFilters (geo : GeoLib) (d : Drop) : Prop :=
  d.reason ≠ DropReason.long_gap ∧ 1 / 100 ≤ dropDistanceKm geo d ∧
    dropAvgSpeedKmh geo d ≤ 200

instance (geo : GeoLib) (d : Drop) : Decidable (passesQualityFilters geo d) := by
  unfold passesQualityFilters
  infer_instance

/-- The Traversal extractCorridors builds for a drop it keeps. -/
def dropTraversal (geo : GeoLib) (h3Resolution : ℕ) (d : Drop) : Traversal :=
  ⟨⟨geo.latLngToCell d.startLat d.startLon h3Resolution,
    geo.latLngToCell d.endLat d.endLon h3Resolution,
    directionBucketOf (geo.bearingDeg d.startLat d.startLon d.endLat d.endLon)⟩,
    d.startTs, d.endTs, d.durationSec, dropAvgSpeedKmh geo d,
    d.startLat, d.startLon, d.endLat, d.endLon⟩

/-- extractCorridors keeps exactly the drops passing the quality
condition and maps each to its Traversal. -/
theorem extractCorridors_eq (geo : GeoLib) (drops : List Drop)
    (h3Resolution : ℕ) :
    extractCorridors geo drops h3Resolution =
      (drops.filter (fun d => decide (passesQualityFilters geo d))).map
        (dropTraversal geo h3Resolution) := by
  induction drops with
  | nil => rfl
  | cons d t ih =>
    have hcons : extractCorridors geo (d :: t) h3Resolution =
        (if d.reason = DropReason.long_gap then
          extractCorridors geo t h3Resolution
        else if dropDistanceKm geo d < 1 / 100 then
          extractCorridors geo t h3Resolution
        else if 200 < dropAvgSpeedKmh geo d then
          extractCorridors geo t h3Resolution
        else dropTraversal geo h3Resolution d ::
          extractCorridors geo t h3Resolution) := rfl
    rw [hcons]
    by_cases hlg : d.reason = DropReason.long_gap
    · rw [if_pos hlg, ih]
      have hp : decide (passesQualityFilters geo d) = false :=
        decide_eq_false (fun hpass => hpass.1 hlg)
      simp [List.filter_cons, hp]
    · rw [if_neg hlg]
      by_cases hdist : dropDistanceKm geo d < 1 / 100
      · rw [if_pos hdist, ih]
        have hp : decide (passesQualityFilters geo d) = false :=
          decide_eq_false (by
            rintro ⟨_, hc, _⟩
            exact absurd hdist (not_lt.2 hc))
        simp [List.filter_cons, hp]
      · rw [if_neg hdist]
        by_cases hsp : 200 < dropAvgSpeedKmh geo d
        · rw [if_pos hsp, ih]
          have hp : decide (passesQualityFilters geo d) = false :=
            decide_eq_false (by
              rintro ⟨_, _, hc⟩
              exact absurd hsp (not_lt.2 hc))
          simp [List.filter_cons, hp]
        · rw [if_neg hsp, ih]
          have hp : decide (passesQualityFilters geo d) = true :=
            decide_eq_true ⟨hlg, not_lt.1 hdist, not_lt.1 hsp⟩
          simp [List.filter_cons, hp]

/-- Claim C2 (amended): corridor extraction emits a Traversal for a
drop if and only if the drop is not classified extended (long_gap), the
straight-line distance between its endpoints is at least 0.01 km, and
its average speed is at most 200 km/h; extended drops never produce a
Traversal, but micro drops are processed exactly like transit ones. -/
theorem extractCorridors_emission (geo : GeoLib) (drops : List Drop)
    (h3Resolution : ℕ) :
    (∀ t, t ∈ extractCorridors geo drops h3Resolution ↔
      ∃ d ∈ drops, passesQualityFilters geo d ∧
        t = dropTraversal geo h3Resolution d) ∧
    ((∀ d ∈ drops, d.reason = DropReason.long_gap) →
      extractCorridors geo drops h3Resolution = []) := by
  constructor
  · intro t
    rw [extractCorridors_eq]
    simp only [List.mem_map, List.mem_filter, decide_eq_true_eq]
    constructor
    · rintro ⟨d, ⟨hd, hp⟩, rfl⟩
      exact ⟨d, hd, hp, rfl⟩
    · rintro ⟨d, hd, hp, rfl⟩
      exact ⟨d, ⟨hd, hp⟩, rfl⟩
  · intro hall
    rw [extractCorridors_eq]
    have : drops.filter (fun d => decide (passesQualityFilters geo d)) = [] := by
      rw [List.filter_eq_nil_iff]
      intro d hd
      simp [passesQualityFilters, hall d hd]
    rw [this]
    rfl

/-- A concrete stand-in for the external geometry libraries: cells are
the floor-degree grid square, bearing is constant, distance is taxicab
in degrees scaled by 111 km per degree. -/
def geoGrid : GeoLib :=
  ⟨fun la lo _ => toString ⌊la⌋ ++ "," ++ toString ⌊lo⌋,
   fun _ _ _ _ => 45,
   fun la1 lo1 la2 lo2 => (|la2 - la1| + |lo2 - lo1|) * 111⟩

/-- A micro_drop whose endpoints are 1 km apart with a 70 s duration,
hence about 51 km/h: it passes both quality filters. -/
def microKmDrop : Drop :=
  ⟨0, 70000, 10, 20, 10, 20 + 1 / 111, 70, DropReason.micro_drop⟩

/-- The micro fixture drop passes both quality filters: 1 km apart and
about 51 km/h. -/
theorem microKmDrop_passes : passesQualityFilters geoGrid microKmDrop := by
  refine ⟨by simp [microKmDrop], ?_, ?_⟩
  · show (1 : ℚ) / 100 ≤ geoGrid.distanceKm 10 20 10 (20 + 1 / 111)
    norm_num [geoGrid]
    rw [abs_of_pos (by norm_num : (0 : ℚ) < 1 / 111)]
    norm_num
  · show avgSpeedOf (geoGrid.distanceKm 10 20 10 (20 + 1 / 111)) 70 ≤ 200
    norm_num [geoGrid, avgSpeedOf]
    rw [abs_of_pos (by norm_num : (0 : ℚ) < 1 / 111)]
    norm_num

/-- Counterexample for C2 as stated: a drop classified micro produces a
Traversal (the source skips only long_gap drops), contradicting "micro
and extended drops never produce a Traversal". -/
theorem extractCorridors_micro_counterexample :
    microKmDrop.reason = DropReason.micro_drop ∧
      extractCorridors geoGrid [microKmDrop] 7 ≠ [] := by
  refine ⟨rfl, ?_⟩
  rw [extractCorridors_eq]
  simp [List.filter_cons, microKmDrop_passes]

/-- Witness for the amended C2: the micro drop above satisfies the
emission condition and its Traversal is in the output. -/
theorem extractCorridors_emission_witness :
    dropTraversal geoGrid 7 microKmDrop ∈ extractCorridors geoGrid [microKmDrop] 7 :=
  ((extractCorridors_emission geoGrid [microKmDrop] 7).1 _).2
    ⟨microKmDrop, List.mem_singleton_self _, microKmDrop_passes, rfl⟩

/-- A weak_signal drop whose endpoints are about 47 m apart inside the
same floor-degree grid cell: a self-loop candidate. -/
def loopDrop : Drop :=
  ⟨0, 100000, 105 / 10 + 1 / 10000, 205 / 10 + 1 / 10000,
    105 / 10 + 4 / 10000, 205 / 10 + 4 / 10000, 100, DropReason.weak_signal⟩

/-- The self-loop fixture drop passes both quality filters. -/
theorem loopDrop_passes : passesQualityFilters geoGrid loopDrop := by
  refine ⟨by simp [loopDrop], ?_, ?_⟩
  · show (1 : ℚ) / 100 ≤ geoGrid.distanceKm (105 / 10 + 1 / 10000)
      (205 / 10 + 1 / 10000) (105 / 10 + 4 / 10000) (205 / 10 + 4 / 10000)
    norm_num [geoGrid]
    rw [abs_of_pos (by norm_num : (0 : ℚ) < 3 / 10000)]
    norm_num
  · show avgSpeedOf (geoGrid.distanceKm (105 / 10 + 1 / 10000)
      (205 / 10 + 1 / 10000) (105 / 10 + 4 / 10000) (205 / 10 + 4 / 10000))
      100 ≤ 200
    norm_num [geoGrid, avgSpeedOf]
    rw [abs_of_pos (by norm_num : (0 : ℚ) < 3 / 10000)]
    norm_num

/-- Claim C3 is violated by the code: the two endpoints of the fixture
drop resolve to the same spatial cell, yet extractCorridors emits a
Traversal for it (whose corridor key is a self-loop with aH3 = bH3);
the source declares a sameCell counter but never filters on it. -/
theorem extractCorridors_selfLoop_bug :
    geoGrid.latLngToCell loopDrop.startLat loopDrop.startLon 7 =
      geoGrid.latLngToCell loopDrop.endLat loopDrop.endLon 7 ∧
    extractCorridors geoGrid [loopDrop] 7 = [dropTraversal geoGrid 7 loopDrop] ∧
    (dropTraversal geoGrid 7 loopDrop).corridorKey.aH3 =
      (dropTraversal geoGrid 7 loopDrop).corridorKey.bH3 := by
  have h1 : ⌊(105 / 10 + 1 / 10000 : ℚ)⌋ = 10 := Int.floor_eq_iff.2 (by norm_num)
  have h2 : ⌊(205 / 10 + 1 / 10000 : ℚ)⌋ = 20 := Int.floor_eq_iff.2 (by norm_num)
  have h3 : ⌊(105 / 10 + 4 / 10000 : ℚ)⌋ = 10 := Int.floor_eq_iff.2 (by norm_num)
  have h4 : ⌊(205 / 10 + 4 / 10000 : ℚ)⌋ = 20 := Int.floor_eq_iff.2 (by norm_num)
  have hcell : geoGrid.latLngToCell loopDrop.startLat loopDrop.startLon 7 =
      geoGrid.latLngToCell loopDrop.endLat loopDrop.endLon 7 := by
    show toString ⌊(105 / 10 + 1 / 10000 : ℚ)⌋ ++ "," ++
        toString ⌊(205 / 10 + 1 / 10000 : ℚ)⌋ =
      toString ⌊(105 / 10 + 4 / 10000 : ℚ)⌋ ++ "," ++
        toString ⌊(205 / 10 + 4 / 10000 : ℚ)⌋
    rw [h1, h2, h3, h4]
  refine ⟨hcell, ?_, hcell⟩
  rw [extractCorridors_eq]
  simp [List.filter_cons, loopDrop_passes]

/-- Membership in firstOccur is membership in the underlying list
(auxiliary, by strong induction on length). -/
theorem firstOccur_mem_aux {α : Type} [DecidableEq α] (x : α) :
    ∀ (n : ℕ) (l : List α), l.length ≤ n → (x ∈ firstOccur l ↔ x ∈ l) := by
  intro n
  induction n with
  | zero =>
    intro l hl
    have hnil : l = [] := List.eq_nil_of_length_eq_zero (Nat.le_zero.1 hl)
    subst hnil
    simp [firstOccur]
  | succ n ih =>
    intro l hl
    cases l with
    | nil => simp [firstOccur]
    | cons a t =>
      rw [firstOccur]
      have hlen : (t.filter (fun y => decide (y ≠ a))).length ≤ n :=
        le_trans (List.length_filter_le _ _)
          (Nat.succ_le_succ_iff.1 (by simpa using hl))
      simp only [List.mem_cons, ih _ hlen, List.mem_filter, decide_eq_true_eq]
      by_cases hxa : x = a
      · simp [hxa]
      · simp [hxa]

/-- Membership in firstOccur is membership in the underlying list. -/
theorem mem_firstOccur {α : Type} [DecidableEq α] (x : α) (l : List α) :
    x ∈ firstOccur l ↔ x ∈ l :=
  firstOccur_mem_aux x l.length l (le_refl _)

/-- firstOccur never repeats an element (auxiliary, by strong induction
on length). -/
theorem firstOccur_nodup_aux {α : Type} [DecidableEq α] :
    ∀ (n : ℕ) (l : List α), l.length ≤ n → (firstOccur l).Nodup := by
  intro n
  induction n with
  | zero =>
    intro l hl
    have hnil : l = [] := List.eq_nil_of_length_eq_zero (Nat.le_zero.1 hl)
    subst hnil
    simp [firstOccur]
  | succ n ih =>
    intro l hl
    cases l with
    | nil => simp [firstOccur]
    | cons a t =>
      rw [firstOccur]
      have hlen : (t.filter (fun y => decide (y ≠ a))).length ≤ n :=
        le_trans (List.length_filter_le _ _)
          (Nat.succ_le_succ_iff.1 (by simpa using hl))
      refine List.nodup_cons.2 ⟨?_, ih _ hlen⟩
      intro hmem
      have := (firstOccur_mem_aux a n _ hlen).1 hmem
      have := (List.mem_filter.1 this).2
      simp at this

/-- firstOccur never repeats an element. -/
theorem firstOccur_nodup {α : Type} [DecidableEq α] (l : List α) :
    (firstOccur l).Nodup :=
  firstOccur_nodup_aux l.length l (le_refl _)

/-- Membership characterization of the hourly baseline block. -/
theorem mem_hourlyBaselinesOf {cid : String} {ts : List TraversalData}
    {minS : ℕ} {b : CorridorBaseline} :
    b ∈ hourlyBaselinesOf cid ts minS ↔
      ∃ h, h ∈ firstOccur (ts.map (fun t => getHourBucket t.startTs)) ∧
        minS ≤ (hourBucketOf ts h).length ∧
        b = mkBaseline cid h (hourBucketOf ts h) := by
  unfold hourlyBaselinesOf
  rw [List.mem_filterMap]
  constructor
  · rintro ⟨h, hmem, hf⟩
    by_cases hc : minS ≤ (hourBucketOf ts h).length
    · rw [if_pos hc] at hf
      exact ⟨h, hmem, hc, (Option.some_inj.1 hf).symm⟩
    · rw [if_neg hc] at hf
      exact absurd hf (Option.noConfusion)
  · rintro ⟨h, hmem, hc, rfl⟩
    exact ⟨h, hmem, by rw [if_pos hc]⟩

/-- filterMap over a nodup list with a key-preserving function yields
pairwise-distinct keys. -/
theorem pairwise_key_filterMap {α β : Type} (f : α → Option β) (key : β → α)
    (hf : ∀ a b, f a = some b → key b = a) :
    ∀ (l : List α), l.Nodup →
      (l.filterMap f).Pairwise (fun b₁ b₂ => key b₁ ≠ key b₂) := by
  intro l
  induction l with
  | nil => simp
  | cons a t ih =>
    intro hl
    rw [List.filterMap_cons]
    have ht : t.Nodup := (List.nodup_cons.1 hl).2
    have hat : a ∉ t := (List.nodup_cons.1 hl).1
    cases hfa : f a with
    | none => exact ih ht
    | some b =>
      refine List.Pairwise.cons ?_ (ih ht)
      intro c hc
      obtain ⟨a2, ha2, hfa2⟩ := List.mem_filterMap.1 hc
      rw [hf a b hfa, hf a2 c hfa2]
      intro heq
      exact hat (heq ▸ ha2)

/-- Every UTC hour bucket value is nonnegative. -/
theorem getHourBucket_nonneg (tsMs : ℤ) : 0 ≤ getHourBucket tsMs :=
  Int.emod_nonneg _ (by norm_num)

/-- Hours appearing in the traversal list are exactly the hours with a
nonempty bucket. -/
theorem hour_mem_map_iff {ts : List TraversalData} {h : ℤ} :
    h ∈ ts.map (fun t => getHourBucket t.startTs) ↔
      0 < (hourBucketOf ts h).length := by
  rw [List.length_pos_iff_ne_nil]
  constructor
  · rw [List.mem_map]
    rintro ⟨t, ht, rfl⟩
    intro hnil
    have hmem : t ∈ hourBucketOf ts (getHourBucket t.startTs) := by
      unfold hourBucketOf
      rw [List.mem_filter]
      exact ⟨ht, by simp⟩
    rw [hnil] at hmem
    exact absurd hmem (List.not_mem_nil t)
  · intro hne
    obtain ⟨t, ht⟩ := List.exists_mem_of_ne_nil _ hne
    have := List.mem_filter.1 ht
    rw [List.mem_map]
    exact ⟨t, this.1, by simpa using this.2⟩

/-- Claim C4: computeBaselines produces an hourly baseline for hour h
iff at least minSamplesForHourly traversals start in hour h; each
hourly baseline carries the count, rounded median travel time, and p95
speed of exactly that hour's traversals; whenever any traversal exists
there is exactly one global baseline (bucketHour -1) over all
traversals; an empty traversal set yields no baselines; and no two
baselines share a bucketHour. -/
theorem computeBaselines_spec (cid : String) (ts : List TraversalData)
    (minS : ℕ) (hmin : 0 < minS) :
    (ts = [] → computeBaselines cid ts minS = []) ∧
    (ts ≠ [] →
      (computeBaselines cid ts minS).filter
        (fun b => decide (b.bucketHour = -1)) = [mkBaseline cid (-1) ts]) ∧
    (∀ h : ℤ, 0 ≤ h →
      ((∃ b ∈ computeBaselines cid ts minS, b.bucketHour = h) ↔
        minS ≤ (hourBucketOf ts h).length)) ∧
    (∀ b ∈ computeBaselines cid ts minS, 0 ≤ b.bucketHour →
      b.count = (hourBucketOf ts b.bucketHour).length ∧
      b.medianTravelSec =
        ((round (median ((hourBucketOf ts b.bucketHour).map
          TraversalData.travelSec)) : ℤ) : ℚ) ∧
      b.p95SpeedKmh =
        percentile ((hourBucketOf ts b.bucketHour).map
          TraversalData.avgSpeedKmh) 95) ∧
    (∀ b ∈ computeBaselines cid ts minS, b.bucketHour = -1 →
      b.count = ts.length ∧
      b.medianTravelSec = ((round (median (ts.map TraversalData.travelSec)) : ℤ) : ℚ) ∧
      b.p95SpeedKmh = percentile (ts.map TraversalData.avgSpeedKmh) 95) ∧
    (computeBaselines cid ts minS).Pairwise
      (fun b₁ b₂ => b₁.bucketHour ≠ b₂.bucketHour) := by
  have hhour : ∀ b ∈ hourlyBaselinesOf cid ts minS, 0 ≤ b.bucketHour := by
    intro b hb
    obtain ⟨h, hmem, _, rfl⟩ := mem_hourlyBaselinesOf.1 hb
    have := (mem_firstOccur h _).1 hmem
    obtain ⟨t, _, rfl⟩ := List.mem_map.1 this
    exact getHourBucket_nonneg _
  refine ⟨?_, ?_, ?_, ?_, ?_, ?_⟩
  · intro hnil
    subst hnil
    simp [computeBaselines, hourlyBaselinesOf, globalBaselineOf, firstOccur]
  · intro hne
    unfold computeBaselines
    rw [List.filter_append]
    have h1 : (hourlyBaselinesOf cid ts minS).filter
        (fun b => decide (b.bucketHour = -1)) = [] := by
      rw [List.filter_eq_nil_iff]
      intro b hb
      have := hhour b hb
      simp only [decide_eq_true_eq]
      intro hcontra
      rw [hcontra] at this
      norm_num at this
    have h2 : globalBaselineOf cid ts =
        [mkBaseline cid (-1) ts] := by
      unfold globalBaselineOf
      rw [if_pos (List.length_pos_iff_ne_nil.2 hne)]
    rw [h1, h2]
    simp [mkBaseline]
  · intro h hge
    constructor
    · rintro ⟨b, hb, hbh⟩
      rcases List.mem_append.1 hb with hmem | hmem
      · obtain ⟨h2, _, hlen, rfl⟩ := mem_hourlyBaselinesOf.1 hmem
        have : h2 = h := hbh
        rw [this] at hlen
        exact hlen
      · unfold globalBaselineOf at hmem
        by_cases hpos : 0 < ts.length
        · rw [if_pos hpos] at hmem
          rw [List.mem_singleton] at hmem
          rw [hmem] at hbh
          have : (-1 : ℤ) = h := hbh
          rw [← this] at hge
          norm_num at hge
        · rw [if_neg hpos] at hmem
          exact absurd hmem (List.not_mem_nil b)
    · intro hlen
      have hpos : 0 < (hourBucketOf ts h).length := lt_of_lt_of_le hmin hlen
      have hmem : h ∈ firstOccur (ts.map (fun t => getHourBucket t.startTs)) :=
        (mem_firstOccur h _).2 (hour_mem_map_iff.2 hpos)
      refine ⟨mkBaseline cid h (hourBucketOf ts h),
        List.mem_append_left _ (mem_hourlyBaselinesOf.2 ⟨h, hmem, hlen, rfl⟩), rfl⟩
  · intro b hb hge
    rcases List.mem_append.1 hb with hmem | hmem
    · obtain ⟨h2, _, _, rfl⟩ := mem_hourlyBaselinesOf.1 hmem
      exact ⟨rfl, rfl, rfl⟩
    · unfold globalBaselineOf at hmem
      by_cases hpos : 0 < ts.length
      · rw [if_pos hpos, List.mem_singleton] at hmem
        rw [hmem] at hge
        have hc : (0 : ℤ) ≤ -1 := hge
        norm_num at hc
      · rw [if_neg hpos] at hmem
        exact absurd hmem (List.not_mem_nil b)
  · intro b hb hbh
    rcases List.mem_append.1 hb with hmem | hmem
    · have := hhour b hmem
      rw [hbh] at this
      norm_num at this
    · unfold globalBaselineOf at hmem
      by_cases hpos : 0 < ts.length
      · rw [if_pos hpos, List.mem_singleton] at hmem
        rw [hmem]
        exact ⟨rfl, rfl, rfl⟩
      · rw [if_neg hpos] at hmem
        exact absurd hmem (List.not_mem_nil b)
  · unfold computeBaselines
    rw [List.pairwise_append]
    refine ⟨?_, ?_, ?_⟩
    · have := pairwise_key_filterMap
        (fun h => if minS ≤ (hourBucketOf ts h).length then
          some (mkBaseline cid h (hourBucketOf ts h)) else none)
        CorridorBaseline.bucketHour ?_
        (firstOccur (ts.map (fun t => getHourBucket t.startTs)))
        (firstOccur_nodup _)
      · exact this
      · intro a b hf
        change (if minS ≤ (hourBucketOf ts a).length then
          some (mkBaseline cid a (hourBucketOf ts a)) else none) = some b at hf
        by_cases hc : minS ≤ (hourBucketOf ts a).length
        · rw [if_pos hc] at hf
          rw [← Option.some_inj.1 hf]
          rfl
        · rw [if_neg hc] at hf
          exact absurd hf (Option.noConfusion)
    · unfold globalBaselineOf
      by_cases hpos : 0 < ts.length
      · rw [if_pos hpos]
        simp
      · rw [if_neg hpos]
        simp
    · intro b1 hb1 b2 hb2
      have hge := hhour b1 hb1
      unfold globalBaselineOf at hb2
      by_cases hpos : 0 < ts.length
      · rw [if_pos hpos, List.mem_singleton] at hb2
        rw [hb2]
        intro heq
        have hneg : b1.bucketHour = (-1 : ℤ) := heq
        rw [hneg] at hge
        norm_num at hge
      · rw [if_neg hpos] at hb2
        exact absurd hb2 (List.not_mem_nil b2)

/-- Epoch milliseconds falling in UTC hour h, minute k, of day zero. -/
def hourTs (h : ℤ) (k : ℤ) : ℤ := h * 3600000 + k * 60000

/-- One traversal fixture starting in hour h, minute k. -/
def travAt (h : ℤ) (k : ℤ) (sec : ℚ) (sp : ℚ) : TraversalData :=
  ⟨sec, sp, hourTs h k⟩

/-- Fixture traversal set: five traversals in hour 10, three in hour 7. -/
def demoTravs : List TraversalData :=
  [travAt 10 0 300 40, travAt 10 1 310 42, travAt 10 2 320 44,
   travAt 10 3 290 46, travAt 10 4 305 48,
   travAt 7 0 280 30, travAt 7 1 285 32, travAt 7 2 290 34]

/-- Witness for C4: with the default minimum of 5 samples, the fixture
set gets an hourly baseline for hour 10 (5 samples) and none for hour 7
(3 samples). -/
theorem computeBaselines_spec_witness :
    (∃ b ∈ computeBaselines ("c") demoTravs 5, b.bucketHour = 10) ∧
      ¬(∃ b ∈ computeBaselines ("c") demoTravs 5, b.bucketHour = 7) := by
  constructor
  · exact ((computeBaselines_spec ("c") demoTravs 5 (by norm_num)).2.2.1 10
      (by norm_num)).2 (by decide)
  · intro hex
    have hlen := ((computeBaselines_spec ("c") demoTravs 5 (by norm_num)).2.2.1 7
      (by norm_num)).1 hex
    revert hlen
    decide

/-- Claim C5: getApplicableBaseline returns a baseline with the
timestamp's UTC hour when one exists, else a global (bucketHour -1)
baseline when one exists, else none. -/
theorem getApplicableBaseline_contract (bs : List CorridorBaseline) (t : ℤ) :
    ((∃ b ∈ bs, b.bucketHour = getHourBucket t) →
      ∃ b, getApplicableBaseline bs t = some b ∧ b ∈ bs ∧
        b.bucketHour = getHourBucket t) ∧
    ((∀ b ∈ bs, b.bucketHour ≠ getHourBucket t) →
      (∃ b ∈ bs, b.bucketHour = -1) →
      ∃ b, getApplicableBaseline bs t = some b ∧ b ∈ bs ∧
        b.bucketHour = -1) ∧
    ((∀ b ∈ bs, b.bucketHour ≠ getHourBucket t) →
      (∀ b ∈ bs, b.bucketHour ≠ -1) →
      getApplicableBaseline bs t = none) := by
  refine ⟨?_, ?_, ?_⟩
  · intro hex
    have hsome : (bs.find? (fun b => decide (b.bucketHour = getHourBucket t))).isSome := by
      rw [List.find?_isSome]
      obtain ⟨b, hb, hbh⟩ := hex
      exact ⟨b, hb, by simp [hbh]⟩
    obtain ⟨b, hfind⟩ := Option.isSome_iff_exists.1 hsome
    refine ⟨b, ?_, List.mem_of_find?_eq_some hfind,
      by simpa using List.find?_some hfind⟩
    simp only [getApplicableBaseline]
    rw [hfind]
  · intro hnone hex
    have hfind1 : bs.find? (fun b => decide (b.bucketHour = getHourBucket t)) = none := by
      rw [List.find?_eq_none]
      intro x hx
      simpa using hnone x hx
    have hsome : (bs.find? (fun b => decide (b.bucketHour = -1))).isSome := by
      rw [List.find?_isSome]
      obtain ⟨b, hb, hbh⟩ := hex
      exact ⟨b, hb, by simp [hbh]⟩
    obtain ⟨b, hfind2⟩ := Option.isSome_iff_exists.1 hsome
    refine ⟨b, ?_, List.mem_of_find?_eq_some hfind2,
      by simpa using List.find?_some hfind2⟩
    simp only [getApplicableBaseline]
    rw [hfind1, hfind2]
  · intro hnone hnoneg
    have hfind1 : bs.find? (fun b => decide (b.bucketHour = getHourBucket t)) = none := by
      rw [List.find?_eq_none]
      intro x hx
      simpa using hnone x hx
    have hfind2 : bs.find? (fun b => decide (b.bucketHour = -1)) = none := by
      rw [List.find?_eq_none]
      intro x hx
      simpa using hnoneg x hx
    simp only [getApplicableBaseline]
    rw [hfind1, hfind2]

/-- The baselines computed for the fixture traversal set. -/
def demoBaselines : List CorridorBaseline := computeBaselines ("c") demoTravs 5

/-- The fixture hours are five 10s followed by three 7s. -/
theorem demoTravs_hours :
    demoTravs.map (fun t => getHourBucket t.startTs) =
      [10, 10, 10, 10, 10, 7, 7, 7] := by
  decide

/-- The hour-10 baseline belongs to the fixture baselines. -/
theorem demo_hourly_mem :
    mkBaseline ("c") 10 (hourBucketOf demoTravs 10) ∈ demoBaselines :=
  List.mem_append_left _ (mem_hourlyBaselinesOf.2
    ⟨10, (mem_firstOccur _ _).2 (by rw [demoTravs_hours]; decide),
      by decide, rfl⟩)

/-- The global baseline belongs to the fixture baselines. -/
theorem demo_global_mem :
    mkBaseline ("c") (-1) demoTravs ∈ demoBaselines := by
  refine List.mem_append_right _ ?_
  unfold globalBaselineOf
  rw [if_pos (by decide : 0 < demoTravs.length)]
  exact List.mem_singleton_self _

/-- Every fixture baseline has bucketHour 10 or -1 (hour 7 has only
three samples, below the minimum of five). -/
theorem demo_buckets (b : CorridorBaseline) (hb : b ∈ demoBaselines) :
    b.bucketHour = 10 ∨ b.bucketHour = -1 := by
  rcases List.mem_append.1 hb with hmem | hmem
  · obtain ⟨h, hfo, hlen, rfl⟩ := mem_hourlyBaselinesOf.1 hmem
    have hmap := (mem_firstOccur h _).1 hfo
    rw [demoTravs_hours] at hmap
    have h107 : h = 10 ∨ h = 7 := by
      simp only [List.mem_cons, List.not_mem_nil, or_false] at hmap
      tauto
    rcases h107 with heq | heq
    · exact Or.inl (heq : (mkBaseline ("c") h (hourBucketOf demoTravs h)).bucketHour = 10)
    · rw [heq] at hlen
      exact absurd hlen (by decide)
  · unfold globalBaselineOf at hmem
    rw [if_pos (by decide : 0 < demoTravs.length), List.mem_singleton] at hmem
    rw [hmem]
    exact Or.inr rfl

/-- Witness for C5: on baselines computed from five hour-10 traversals
(and three hour-7 ones), lookup at an hour-10 timestamp returns the
hourly baseline and lookup at hour 11 returns the global baseline. -/
theorem getApplicableBaseline_contract_witness :
    (∃ b, getApplicableBaseline demoBaselines (hourTs 10 30) = some b ∧
      b ∈ demoBaselines ∧ b.bucketHour = 10) ∧
    (∃ b, getApplicableBaseline demoBaselines (hourTs 11 30) = some b ∧
      b ∈ demoBaselines ∧ b.bucketHour = -1) := by
  have h10 : getHourBucket (hourTs 10 30) = 10 := by decide
  have h11 : getHourBucket (hourTs 11 30) = 11 := by decide
  constructor
  · obtain ⟨b, hres, hmem, hbh⟩ :=
      (getApplicableBaseline_contract demoBaselines (hourTs 10 30)).1
        ⟨mkBaseline ("c") 10 (hourBucketOf demoTravs 10), demo_hourly_mem,
          by rw [h10]; rfl⟩
    exact ⟨b, hres, hmem, by rw [← h10]; exact hbh⟩
  · obtain ⟨b, hres, hmem, hbh⟩ :=
      (getApplicableBaseline_contract demoBaselines (hourTs 11 30)).2.1
        (by
          intro b hb
          rw [h11]
          rcases demo_buckets b hb with hbh | hbh <;> rw [hbh] <;> decide)
        ⟨mkBaseline ("c") (-1) demoTravs, demo_global_mem, rfl⟩
    exact ⟨b, hres, hmem, hbh⟩

/-- The delay block yields nothing or a single delay alert for the
input's trip and corridor, unresolved at creation. -/
theorem delayAlertsOf_cases (a : CorridorBaseline) (e : List Alert)
    (i : AlertInput) (thr : ℚ) :
    delayAlertsOf a e i thr = [] ∨
      ∃ x, delayAlertsOf a e i thr = [x] ∧ x.alertKind = AlertType.delay ∧
        x.tripId = i.tripId ∧ x.corridorId = i.corridorId ∧
        x.resolvedAt = none ∧
        e.find? (matchesUnresolved AlertType.delay i.tripId i.corridorId) = none := by
  unfold delayAlertsOf
  by_cases hc : (checkDelayAlert i.travelSec a thr).isAlert = true
  · rw [if_pos hc]
    cases hfind : e.find? (matchesUnresolved AlertType.delay i.tripId i.corridorId) with
    | some x => exact Or.inl rfl
    | none => exact Or.inr ⟨_, rfl, rfl, rfl, rfl, rfl, rfl⟩
  · rw [if_neg (by simpa using hc)]
    exact Or.inl rfl

/-- The overspeed block yields nothing or a single overspeed alert for
the input's trip and corridor, unresolved at creation. -/
theorem overspeedAlertsOf_cases (a : CorridorBaseline) (e : List Alert)
    (i : AlertInput) :
    overspeedAlertsOf a e i = [] ∨
      ∃ x, overspeedAlertsOf a e i = [x] ∧ x.alertKind = AlertType.overspeed ∧
        x.tripId = i.tripId ∧ x.corridorId = i.corridorId ∧
        x.resolvedAt = none ∧
        e.find? (matchesUnresolved AlertType.overspeed i.tripId i.corridorId) = none := by
  unfold overspeedAlertsOf
  by_cases hc : (checkOverspeedAlert i.avgSpeedKmh a).isAlert = true
  · rw [if_pos hc]
    cases hfind : e.find? (matchesUnresolved AlertType.overspeed i.tripId i.corridorId) with
    | some x => exact Or.inl rfl
    | none => exact Or.inr ⟨_, rfl, rfl, rfl, rfl, rfl, rfl⟩
  · rw [if_neg (by simpa using hc)]
    exact Or.inl rfl

/-- When an unresolved delay alert for the trip and corridor already
exists, the delay block creates nothing. -/
theorem delayAlertsOf_suppressed (a : CorridorBaseline) (e : List Alert)
    (i : AlertInput) (thr : ℚ)
    (hfind : e.find? (matchesUnresolved AlertType.delay i.tripId i.corridorId) ≠ none) :
    delayAlertsOf a e i thr = [] := by
  unfold delayAlertsOf
  by_cases hc : (checkDelayAlert i.travelSec a thr).isAlert = true
  · rw [if_pos hc]
    cases hfind2 : e.find? (matchesUnresolved AlertType.delay i.tripId i.corridorId) with
    | some x => rfl
    | none => exact absurd hfind2 hfind
  · rw [if_neg (by simpa using hc)]

/-- When an unresolved overspeed alert for the trip and corridor already
exists, the overspeed block creates nothing. -/
theorem overspeedAlertsOf_suppressed (a : CorridorBaseline) (e : List Alert)
    (i : AlertInput)
    (hfind : e.find? (matchesUnresolved AlertType.overspeed i.tripId i.corridorId) ≠ none) :
    overspeedAlertsOf a e i = [] := by
  unfold overspeedAlertsOf
  by_cases hc : (checkOverspeedAlert i.avgSpeedKmh a).isAlert = true
  · rw [if_pos hc]
    cases hfind2 : e.find? (matchesUnresolved AlertType.overspeed i.tripId i.corridorId) with
    | some x => rfl
    | none => exact absurd hfind2 hfind
  · rw [if_neg (by simpa using hc)]

/-- The created alerts are the delay block followed by the overspeed
block whenever a baseline is applicable, and empty otherwise. -/
theorem checkAndCreateAlerts_cases (baselines : List CorridorBaseline)
    (e : List Alert) (i : AlertInput) (thr : ℚ) :
    checkAndCreateAlerts baselines e i thr = [] ∨
      ∃ a, getApplicableBaseline baselines i.timestamp = some a ∧
        checkAndCreateAlerts baselines e i thr =
          delayAlertsOf a e i thr ++ overspeedAlertsOf a e i := by
  unfold checkAndCreateAlerts
  by_cases hlen : baselines.length = 0
  · rw [if_pos hlen]
    exact Or.inl rfl
  · rw [if_neg hlen]
    cases happ : getApplicableBaseline baselines i.timestamp with
    | none => exact Or.inl rfl
    | some a => exact Or.inr ⟨a, rfl, rfl⟩

/-- When a baseline is applicable and the table is nonempty, the
created alerts are the delay block followed by the overspeed block. -/
theorem checkAndCreateAlerts_of_applicable (baselines : List CorridorBaseline)
    (e : List Alert) (i : AlertInput) (thr : ℚ) (a : CorridorBaseline)
    (hlen : ¬ baselines.length = 0)
    (happ : getApplicableBaseline baselines i.timestamp = some a) :
    checkAndCreateAlerts baselines e i thr =
      delayAlertsOf a e i thr ++ overspeedAlertsOf a e i := by
  unfold checkAndCreateAlerts
  rw [if_neg hlen, happ]

/-- Severity characterization of getAlertSeverity for any alert type. -/
theorem getAlertSeverity_rule (alertKind : AlertType)
    (deltaValue threshold : ℚ) :
    (getAlertSeverity alertKind deltaValue threshold = AlertSeverity.high ↔
      2 ≤ |deltaValue| / threshold) ∧
    (getAlertSeverity alertKind deltaValue threshold = AlertSeverity.medium ↔
      3 / 2 ≤ |deltaValue| / threshold ∧ |deltaValue| / threshold < 2) ∧
    (getAlertSeverity alertKind deltaValue threshold = AlertSeverity.low ↔
      |deltaValue| / threshold < 3 / 2) := by
  unfold getAlertSeverity
  by_cases h2 : 2 ≤ |deltaValue| / threshold
  · rw [if_pos h2]
    exact ⟨iff_of_true rfl h2,
      iff_of_false (by simp) (fun hc => absurd h2 (not_le.2 hc.2)),
      iff_of_false (by simp) (not_lt.2 (le_trans (by norm_num) h2))⟩
  · rw [if_neg h2]
    by_cases h15 : 3 / 2 ≤ |deltaValue| / threshold
    · rw [if_pos h15]
      exact ⟨iff_of_false (by simp) h2,
        iff_of_true rfl ⟨h15, not_le.1 h2⟩,
        iff_of_false (by simp) (not_lt.2 h15)⟩
    · rw [if_neg h15]
      exact ⟨iff_of_false (by simp) h2,
        iff_of_false (by simp) (fun hc => absurd hc.1 h15),
        iff_of_true rfl (not_le.1 h15)⟩

/-- Baseline fixture with median travel time 300 s and p95 speed 0. -/
def bl300 : CorridorBaseline := ⟨("c"), -1, 5, 300, 0⟩

/-- Traversal input fixture of 1400 s travel time and no speed. -/
def inputC6 : AlertInput := ⟨("c"), ("t"), ("v"), 1400, 0, 0⟩

/-- The global fixture baseline is applicable at timestamp 0. -/
theorem bl300_applicable : getApplicableBaseline [bl300] 0 = some bl300 := by
  norm_num [getApplicableBaseline, getHourBucket, List.find?, bl300]

/-- Evaluation of the alert checks on the 300 s baseline with a 1400 s
traversal: one delay alert, delta 1100, severity low (1100 / 900 is
below 1.5). -/
theorem delayDemo_eval :
    checkAndCreateAlerts [bl300] [] inputC6 15 =
      [⟨AlertType.delay, ("c"), ("t"), ("v"), AlertSeverity.low, 1100, none⟩] := by
  have habs : |(1100 : ℚ)| = 1100 := abs_of_pos (by norm_num)
  rw [checkAndCreateAlerts_of_applicable [bl300] [] inputC6 15 bl300
    (by simp) bl300_applicable]
  norm_num [delayAlertsOf, overspeedAlertsOf, checkDelayAlert,
    checkOverspeedAlert, getAlertSeverity, bl300, inputC6, List.find?, habs]

/-- Counterexample for C6 as stated: the spec example (median 300 s,
traversal 1400 s, threshold 900 s) yields severity low, not high, since
1100 / 900 is about 1.22. -/
theorem delay_severity_counterexample :
    (checkAndCreateAlerts [bl300] [] inputC6 15).map (fun a => a.severity) =
      [AlertSeverity.low] ∧ AlertSeverity.low ≠ AlertSeverity.high := by
  rw [delayDemo_eval]
  exact ⟨rfl, by simp⟩

/-- Claim C6 (amended): the delay check alerts iff
travelSec - medianTravelSec reaches delayThresholdMinutes * 60, with
severity high at ratio at least 2, medium at least 1.5, else low; the
spec's 300 s / 1400 s example yields exactly one delay alert with
deltaSec 1100 and severity low (ratio about 1.22). -/
theorem checkDelayAlert_rule :
    (∀ (travelSec : ℚ) (b : CorridorBaseline) (thrMin : ℚ),
      ((checkDelayAlert travelSec b thrMin).isAlert = true ↔
        thrMin * 60 ≤ travelSec - b.medianTravelSec) ∧
      (checkDelayAlert travelSec b thrMin).deltaSec =
        travelSec - b.medianTravelSec) ∧
    (∀ (deltaValue threshold : ℚ),
      (getAlertSeverity AlertType.delay deltaValue threshold =
        AlertSeverity.high ↔ 2 ≤ |deltaValue| / threshold) ∧
      (getAlertSeverity AlertType.delay deltaValue threshold =
        AlertSeverity.medium ↔
        3 / 2 ≤ |deltaValue| / threshold ∧ |deltaValue| / threshold < 2) ∧
      (getAlertSeverity AlertType.delay deltaValue threshold =
        AlertSeverity.low ↔ |deltaValue| / threshold < 3 / 2)) ∧
    (checkAndCreateAlerts [bl300] [] inputC6 15).map
      (fun a => (a.alertKind, a.deltaValue, a.severity)) =
      [(AlertType.delay, 1100, AlertSeverity.low)] := by
  refine ⟨?_, fun d t => getAlertSeverity_rule AlertType.delay d t, ?_⟩
  · intro travelSec b thrMin
    unfold checkDelayAlert
    exact ⟨by simp, rfl⟩
  · rw [delayDemo_eval]
    rfl

/-- Baseline fixture with median 300 s and p95 speed 50 km/h. -/
def bl350 : CorridorBaseline := ⟨("c"), -1, 5, 300, 50⟩

/-- Traversal input of 300 s and no speed: no alert fires. -/
def inputZero : AlertInput := ⟨("c"), ("t"), ("v"), 300, 0, 0⟩

/-- Traversal input of 1400 s at 60 km/h: both alerts fire. -/
def inputBoth : AlertInput := ⟨("c"), ("t"), ("v"), 1400, 60, 0⟩

/-- The p95-50 fixture baseline is applicable at timestamp 0. -/
theorem bl350_applicable : getApplicableBaseline [bl350] 0 = some bl350 := by
  norm_num [getApplicableBaseline, getHourBucket, List.find?, bl350]

/-- Claim C7: the overspeed check alerts iff the speed delta is
positive and the baseline p95 is positive; the delay and overspeed
checks are independent, so a traversal yields at most one alert of each
type (at most two in total), and concrete inputs realize zero, one, and
two alerts. -/
theorem checkOverspeedAlert_rule :
    (∀ (speed : ℚ) (b : CorridorBaseline),
      ((checkOverspeedAlert speed b).isAlert = true ↔
        0 < speed - b.p95SpeedKmh ∧ 0 < b.p95SpeedKmh) ∧
      (checkOverspeedAlert speed b).deltaSpeedKmh = speed - b.p95SpeedKmh) ∧
    (∀ (baselines : List CorridorBaseline) (e : List Alert)
      (i : AlertInput) (thr : ℚ),
      ((checkAndCreateAlerts baselines e i thr).filter
        (fun a => decide (a.alertKind = AlertType.delay))).length ≤ 1 ∧
      ((checkAndCreateAlerts baselines e i thr).filter
        (fun a => decide (a.alertKind = AlertType.overspeed))).length ≤ 1 ∧
      (checkAndCreateAlerts baselines e i thr).length ≤ 2) ∧
    checkAndCreateAlerts [bl350] [] inputZero 15 = [] ∧
    (checkAndCreateAlerts [bl300] [] inputC6 15).map (fun a => a.alertKind) =
      [AlertType.delay] ∧
    (checkAndCreateAlerts [bl350] [] inputBoth 15).map (fun a => a.alertKind) =
      [AlertType.delay, AlertType.overspeed] := by
  refine ⟨?_, ?_, ?_, ?_, ?_⟩
  · intro speed b
    unfold checkOverspeedAlert
    exact ⟨by simp, rfl⟩
  · intro baselines e i thr
    rcases checkAndCreateAlerts_cases baselines e i thr with hnil | ⟨a, _, heq⟩
    · simp [hnil]
    · rw [heq]
      have hd : (delayAlertsOf a e i thr).length ≤ 1 ∧
          ∀ x ∈ delayAlertsOf a e i thr, x.alertKind = AlertType.delay := by
        rcases delayAlertsOf_cases a e i thr with hn | ⟨x, hx, hk, _, _, _, _⟩
        · simp [hn]
        · rw [hx]
          exact ⟨by simp, by simpa using hk⟩
      have ho : (overspeedAlertsOf a e i).length ≤ 1 ∧
          ∀ x ∈ overspeedAlertsOf a e i, x.alertKind = AlertType.overspeed := by
        rcases overspeedAlertsOf_cases a e i with hn | ⟨x, hx, hk, _, _, _, _⟩
        · simp [hn]
        · rw [hx]
          exact ⟨by simp, by simpa using hk⟩
      refine ⟨?_, ?_, ?_⟩
      · rw [List.filter_append]
        have hof : (overspeedAlertsOf a e i).filter
            (fun a => decide (a.alertKind = AlertType.delay)) = [] := by
          rw [List.filter_eq_nil_iff]
          intro x hx
          simp [ho.2 x hx]
        rw [hof, List.append_nil]
        exact le_trans (List.length_filter_le _ _) hd.1
      · rw [List.filter_append]
        have hdf : (delayAlertsOf a e i thr).filter
            (fun a => decide (a.alertKind = AlertType.overspeed)) = [] := by
          rw [List.filter_eq_nil_iff]
          intro x hx
          simp [hd.2 x hx]
        rw [hdf, List.nil_append]
        exact le_trans (List.length_filter_le _ _) ho.1
      · rw [List.length_append]
        omega
  · rw [checkAndCreateAlerts_of_applicable [bl350] [] inputZero 15 bl350
      (by simp) bl350_applicable]
    norm_num [delayAlertsOf, overspeedAlertsOf, checkDelayAlert,
      checkOverspeedAlert, bl350, inputZero]
  · rw [delayDemo_eval]
    rfl
  · have habs1100 : |(1100 : ℚ)| = 1100 := abs_of_pos (by norm_num)
    have habs10 : |(10 : ℚ)| = 10 := abs_of_pos (by norm_num)
    rw [checkAndCreateAlerts_of_applicable [bl350] [] inputBoth 15 bl350
      (by simp) bl350_applicable]
    norm_num [delayAlertsOf, overspeedAlertsOf, checkDelayAlert,
      checkOverspeedAlert, getAlertSeverity, bl350, inputBoth, List.find?,
      habs1100, habs10]

/-- Every alert the delay block creates is a delay alert for the
input's trip and corridor, unresolved. -/
theorem delayAlertsOf_kinds (a : CorridorBaseline) (e : List Alert)
    (i : AlertInput) (thr : ℚ) :
    ∀ y ∈ delayAlertsOf a e i thr, y.alertKind = AlertType.delay ∧
      y.tripId = i.tripId ∧ y.corridorId = i.corridorId ∧
      y.resolvedAt = none := by
  rcases delayAlertsOf_cases a e i thr with hn | ⟨x, hx, h1, h2, h3, h4, _⟩
  · rw [hn]
    intro y hy
    exact absurd hy (List.not_mem_nil y)
  · rw [hx]
    intro y hy
    rw [List.mem_singleton] at hy
    subst hy
    exact ⟨h1, h2, h3, h4⟩

/-- Every alert the overspeed block creates is an overspeed alert for
the input's trip and corridor, unresolved. -/
theorem overspeedAlertsOf_kinds (a : CorridorBaseline) (e : List Alert)
    (i : AlertInput) :
    ∀ y ∈ overspeedAlertsOf a e i, y.alertKind = AlertType.overspeed ∧
      y.tripId = i.tripId ∧ y.corridorId = i.corridorId ∧
      y.resolvedAt = none := by
  rcases overspeedAlertsOf_cases a e i with hn | ⟨x, hx, h1, h2, h3, h4, _⟩
  · rw [hn]
    intro y hy
    exact absurd hy (List.not_mem_nil y)
  · rw [hx]
    intro y hy
    rw [List.mem_singleton] at hy
    subst hy
    exact ⟨h1, h2, h3, h4⟩

/-- When an unresolved delay alert for the input's trip and corridor is
already stored, no delay alert is created. -/
theorem checkAndCreateAlerts_no_delay (baselines : List CorridorBaseline)
    (s : List Alert) (i : AlertInput) (thr : ℚ)
    (hex : ∃ x ∈ s, matchesUnresolved AlertType.delay i.tripId i.corridorId x = true) :
    ∀ y ∈ checkAndCreateAlerts baselines s i thr,
      y.alertKind ≠ AlertType.delay := by
  have hfind : s.find? (matchesUnresolved AlertType.delay i.tripId i.corridorId) ≠ none := by
    rw [Ne, List.find?_eq_none]
    obtain ⟨x, hx, hm⟩ := hex
    intro hno
    exact (hno x hx) hm
  rcases checkAndCreateAlerts_cases baselines s i thr with hn | ⟨a, happ, heq⟩
  · rw [hn]
    intro y hy
    exact absurd hy (List.not_mem_nil y)
  · rw [heq, delayAlertsOf_suppressed a s i thr hfind, List.nil_append]
    intro y hy
    rw [(overspeedAlertsOf_kinds a s i y hy).1]
    simp

/-- When an unresolved overspeed alert for the input's trip and
corridor is already stored, no overspeed alert is created. -/
theorem checkAndCreateAlerts_no_overspeed (baselines : List CorridorBaseline)
    (s : List Alert) (i : AlertInput) (thr : ℚ)
    (hex : ∃ x ∈ s, matchesUnresolved AlertType.overspeed i.tripId i.corridorId x = true) :
    ∀ y ∈ checkAndCreateAlerts baselines s i thr,
      y.alertKind ≠ AlertType.overspeed := by
  have hfind : s.find? (matchesUnresolved AlertType.overspeed i.tripId i.corridorId) ≠ none := by
    rw [Ne, List.find?_eq_none]
    obtain ⟨x, hx, hm⟩ := hex
    intro hno
    exact (hno x hx) hm
  rcases checkAndCreateAlerts_cases baselines s i thr with hn | ⟨a, happ, heq⟩
  · rw [hn]
    intro y hy
    exact absurd hy (List.not_mem_nil y)
  · rw [heq, overspeedAlertsOf_suppressed a s i hfind, List.append_nil]
    intro y hy
    rw [(delayAlertsOf_kinds a s i thr y hy).1]
    simp

/-- Unresolved alerts of one (type, tripId, corridorId) triple. -/
def unresolvedMatches (s : List Alert) (kind : AlertType)
    (tripId corridorId : String) : List Alert :=
  s.filter (matchesUnresolved kind tripId corridorId)

/-- Stated from the spec: at most one unresolved alert per
(tripId, corridorId, type) triple. -/
def atMostOnePerTriple (s : List Alert) : Prop :=
  ∀ (kind : AlertType) (tripId corridorId : String),
    (unresolvedMatches s kind tripId corridorId).length ≤ 1

/-- The created alerts contain at most one match for any triple, and a
created match implies the store had none (its find?-based guard). -/
theorem created_filter_bound (baselines : List CorridorBaseline)
    (s : List Alert) (i : AlertInput) (thr : ℚ) (kind : AlertType)
    (trip corr : String) :
    (((checkAndCreateAlerts baselines s i thr).filter
      (matchesUnresolved kind trip corr)).length ≤ 1) ∧
    ((((checkAndCreateAlerts baselines s i thr).filter
      (matchesUnresolved kind trip corr)) ≠ []) →
      s.filter (matchesUnresolved kind trip corr) = []) := by
  have hsingle : ∀ (x : Alert), x.tripId = i.tripId →
      x.corridorId = i.corridorId →
      matchesUnresolved kind trip corr x = true →
      trip = i.tripId ∧ corr = i.corridorId := by
    intro x htx hcx hm
    unfold matchesUnresolved at hm
    rw [decide_eq_true_eq] at hm
    exact ⟨hm.2.1 ▸ htx, hm.2.2.1 ▸ hcx⟩
  rcases checkAndCreateAlerts_cases baselines s i thr with hn | ⟨a, happ, heq⟩
  · rw [hn]
    exact ⟨by simp, by simp⟩
  · rw [heq, List.filter_append]
    rcases delayAlertsOf_cases a s i thr with hdl | ⟨x, hdl, hx1, hx2, hx3, hx4, hxf⟩ <;>
      rcases overspeedAlertsOf_cases a s i with hov | ⟨y, hov, hy1, hy2, hy3, hy4, hyf⟩ <;>
      rw [hdl, hov]
    · exact ⟨by simp, by simp⟩
    · by_cases hpy : matchesUnresolved kind trip corr y = true
      · have hkind : kind = AlertType.overspeed := by
          unfold matchesUnresolved at hpy
          rw [decide_eq_true_eq] at hpy
          exact hpy.1 ▸ hy1
        obtain ⟨htr, hco⟩ := hsingle y hy2 hy3 hpy
        subst hkind
        subst htr
        subst hco
        constructor
        · simp [List.filter_cons, hpy]
        · intro _
          rw [List.filter_eq_nil_iff]
          intro z hz hmz
          have := List.find?_eq_none.1 hyf z hz
          exact this hmz
      · constructor
        · simp [List.filter_cons, hpy]
        · intro hne
          simp [List.filter_cons, hpy] at hne
    · by_cases hpx : matchesUnresolved kind trip corr x = true
      · have hkind : kind = AlertType.delay := by
          unfold matchesUnresolved at hpx
          rw [decide_eq_true_eq] at hpx
          exact hpx.1 ▸ hx1
        obtain ⟨htr, hco⟩ := hsingle x hx2 hx3 hpx
        subst hkind
        subst htr
        subst hco
        constructor
        · simp [List.filter_cons, hpx]
        · intro _
          rw [List.filter_eq_nil_iff]
          intro z hz hmz
          have := List.find?_eq_none.1 hxf z hz
          exact this hmz
      · constructor
        · simp [List.filter_cons, hpx]
        · intro hne
          simp [List.filter_cons, hpx] at hne
    · by_cases hpx : matchesUnresolved kind trip corr x = true
      · have hkind : kind = AlertType.delay := by
          unfold matchesUnresolved at hpx
          rw [decide_eq_true_eq] at hpx
          exact hpx.1 ▸ hx1
        have hpy : matchesUnresolved kind trip corr y = false := by
          rw [← Bool.not_eq_true]
          intro hpy
          have hkind2 : kind = AlertType.overspeed := by
            unfold matchesUnresolved at hpy
            rw [decide_eq_true_eq] at hpy
            exact hpy.1 ▸ hy1
          rw [hkind] at hkind2
          exact AlertType.noConfusion hkind2
        obtain ⟨htr, hco⟩ := hsingle x hx2 hx3 hpx
        subst hkind
        subst htr
        subst hco
        constructor
        · simp [List.filter_cons, hpx, hpy]
        · intro _
          rw [List.filter_eq_nil_iff]
          intro z hz hmz
          have := List.find?_eq_none.1 hxf z hz
          exact this hmz
      · by_cases hpy : matchesUnresolved kind trip corr y = true
        · have hkind : kind = AlertType.overspeed := by
            unfold matchesUnresolved at hpy
            rw [decide_eq_true_eq] at hpy
            exact hpy.1 ▸ hy1
          obtain ⟨htr, hco⟩ := hsingle y hy2 hy3 hpy
          subst hkind
          subst htr
          subst hco
          constructor
          · simp [List.filter_cons, hpx, hpy]
          · intro _
            rw [List.filter_eq_nil_iff]
            intro z hz hmz
            have := List.find?_eq_none.1 hyf z hz
            exact this hmz
        · constructor
          · simp [List.filter_cons, hpx, hpy]
          · intro hne
            simp [List.filter_cons, hpx, hpy] at hne

/-- Claim C8: at most one unresolved alert per (tripId, corridorId,
type): when an unresolved alert of the same triple exists, no new alert
of that type is created and the stored alerts are untouched (the run
only appends); processing preserves the at-most-one invariant; and two
delay-qualifying traversals of the same trip and corridor processed
sequentially yield exactly one delay alert in total. -/
theorem alert_dedup (baselines : List CorridorBaseline) (s : List Alert)
    (i : AlertInput) (thr : ℚ) :
    ((∃ x ∈ s, matchesUnresolved AlertType.delay i.tripId i.corridorId x = true) →
      ∀ y ∈ checkAndCreateAlerts baselines s i thr,
        y.alertKind ≠ AlertType.delay) ∧
    ((∃ x ∈ s, matchesUnresolved AlertType.overspeed i.tripId i.corridorId x = true) →
      ∀ y ∈ checkAndCreateAlerts baselines s i thr,
        y.alertKind ≠ AlertType.overspeed) ∧
    (applyAlerts baselines s i thr).take s.length = s ∧
    (atMostOnePerTriple s → atMostOnePerTriple (applyAlerts baselines s i thr)) ∧
    (∀ (i2 : AlertInput), i2.tripId = i.tripId → i2.corridorId = i.corridorId →
      (∃ y ∈ checkAndCreateAlerts baselines s i thr,
        y.alertKind = AlertType.delay) →
      ((checkAndCreateAlerts baselines s i thr).filter
        (fun y => decide (y.alertKind = AlertType.delay))).length +
      ((checkAndCreateAlerts baselines (applyAlerts baselines s i thr) i2 thr).filter
        (fun y => decide (y.alertKind = AlertType.delay))).length = 1) := by
  refine ⟨checkAndCreateAlerts_no_delay baselines s i thr,
    checkAndCreateAlerts_no_overspeed baselines s i thr, ?_, ?_, ?_⟩
  · show (s ++ checkAndCreateAlerts baselines s i thr).take s.length = s
    exact List.take_left s _
  · intro hinv kind trip corr
    show ((s ++ checkAndCreateAlerts baselines s i thr).filter
      (matchesUnresolved kind trip corr)).length ≤ 1
    rw [List.filter_append, List.length_append]
    obtain ⟨hb, hd⟩ := created_filter_bound baselines s i thr kind trip corr
    by_cases hne : (checkAndCreateAlerts baselines s i thr).filter
        (matchesUnresolved kind trip corr) = []
    · rw [hne]
      simpa using hinv kind trip corr
    · rw [hd hne]
      simpa using hb
  · intro i2 ht2 hc2 hdl
    rcases checkAndCreateAlerts_cases baselines s i thr with hn | ⟨a, happ, heq⟩
    · obtain ⟨y, hy, _⟩ := hdl
      rw [hn] at hy
      exact absurd hy (List.not_mem_nil y)
    · obtain ⟨y, hy, hky⟩ := hdl
      rw [heq] at hy
      rcases List.mem_append.1 hy with hyd | hyo
      · rcases delayAlertsOf_cases a s i thr with hdl0 | ⟨x, hdl1, hx1, hx2, hx3, hx4, hxf⟩
        · rw [hdl0] at hyd
          exact absurd hyd (List.not_mem_nil y)
        · have hfirst : ((checkAndCreateAlerts baselines s i thr).filter
              (fun y => decide (y.alertKind = AlertType.delay))).length = 1 := by
            rw [heq, List.filter_append, hdl1]
            have hovf : (overspeedAlertsOf a s i).filter
                (fun y => decide (y.alertKind = AlertType.delay)) = [] := by
              rw [List.filter_eq_nil_iff]
              intro z hz
              rw [decide_eq_true_eq]
              rw [(overspeedAlertsOf_kinds a s i z hz).1]
              simp
            rw [hovf, List.append_nil]
            simp [List.filter_cons, hx1]
          have hsecond : ((checkAndCreateAlerts baselines
              (applyAlerts baselines s i thr) i2 thr).filter
              (fun y => decide (y.alertKind = AlertType.delay))).length = 0 := by
            have hmem : x ∈ applyAlerts baselines s i thr := by
              show x ∈ s ++ checkAndCreateAlerts baselines s i thr
              refine List.mem_append_right s ?_
              rw [heq]
              refine List.mem_append_left _ ?_
              rw [hdl1]
              exact List.mem_singleton_self x
            have hmatch : matchesUnresolved AlertType.delay i2.tripId
                i2.corridorId x = true := by
              unfold matchesUnresolved
              rw [decide_eq_true_eq]
              exact ⟨hx1, ht2 ▸ hx2, hc2 ▸ hx3, hx4⟩
            have hno := checkAndCreateAlerts_no_delay baselines
              (applyAlerts baselines s i thr) i2 thr ⟨x, hmem, hmatch⟩
            rw [List.length_eq_zero, List.filter_eq_nil_iff]
            intro z hz
            rw [decide_eq_true_eq]
            exact hno z hz
          rw [hfirst, hsecond]
      · have := (overspeedAlertsOf_kinds a s i y hyo).1
        rw [this] at hky
        exact absurd hky (by simp)

/-- Witness for C8: the 1400 s traversal fixture alerts once; replaying
the same qualifying traversal against the updated store creates no
second delay alert, one delay alert in total. -/
theorem alert_dedup_witness :
    ((checkAndCreateAlerts [bl300] [] inputC6 15).filter
      (fun y => decide (y.alertKind = AlertType.delay))).length +
    ((checkAndCreateAlerts [bl300] (applyAlerts [bl300] [] inputC6 15)
      inputC6 15).filter
      (fun y => decide (y.alertKind = AlertType.delay))).length = 1 := by
  refine (alert_dedup [bl300] [] inputC6 15).2.2.2.2 inputC6 rfl rfl ?_
  rw [delayDemo_eval]
  exact ⟨_, List.mem_singleton_self _, rfl⟩

/-- Claim C9: when any fix of the batch is invalid (lat outside
[-90, 90], lon outside [-180, 180], or unparsable timestamp), the whole
ingest batch is rejected with a validation error before any processing,
and the database state is returned unchanged: no point, trip, drop,
traversal, baseline, or alert is created or modified. -/
theorem ingest_validation (geo : GeoLib) (parseTs : String → Option ℤ)
    (tauShort : ℚ) (h3Res : ℕ) (delayThr : ℚ) (points : List RawPoint)
    (db : DBState)
    (h : ∃ p ∈ points, validPoint parseTs p = false) :
    runIngest geo parseTs tauShort h3Res delayThr points db =
      (db, some IngestError.validationError) ∧
    (∀ (p : RawPoint), validPoint parseTs p = false ↔
      (p.lat < -90 ∨ 90 < p.lat ∨ p.lon < -180 ∨ 180 < p.lon ∨
        parseTs p.ts = none)) := by
  constructor
  · have hany : points.any (fun p => !(validPoint parseTs p)) = true := by
      rw [List.any_eq_true]
      obtain ⟨p, hp, hv⟩ := h
      exact ⟨p, hp, by rw [hv]; rfl⟩
    have herr : ingestPOST geo parseTs tauShort h3Res delayThr points db =
        Except.error IngestError.validationError := by
      unfold ingestPOST
      rw [if_pos hany]
    unfold runIngest
    rw [herr]
  · intro p
    unfold validPoint
    cases hpt : parseTs p.ts with
    | none => simp
    | some t =>
      simp only [Option.isSome_some, Bool.and_true, decide_eq_false_iff_not]
      constructor
      · intro hn
        by_contra hall
        push_neg at hall
        exact hn ⟨hall.1, hall.2.1, hall.2.2.1, hall.2.2.2.1⟩
      · intro hd hP
        rcases hd with hb | hb | hb | hb | hb
        · exact absurd hP.1 (not_le.2 hb)
        · exact absurd hP.2.1 (not_le.2 hb)
        · exact absurd hP.2.2.1 (not_le.2 hb)
        · exact absurd hP.2.2.2 (not_le.2 hb)
        · exact Option.noConfusion hb

/-- A raw point with latitude 91, outside the valid range. -/
def badPoint : RawPoint := ⟨("v1"), none, ("t0"), 91, 0, none, none, none⟩

/-- The empty database state. -/
def emptyDB : DBState := ⟨[], [], [], [], [], [], [], [], 0⟩

/-- A timestamp parser stub that accepts everything. -/
def parseTs0 : String → Option ℤ := fun _ => some 0

/-- Witness for C9: a batch holding a lat-91 point is rejected with a
validation error and leaves the empty database untouched. -/
theorem ingest_validation_witness :
    runIngest geoGrid parseTs0 60 7 15 [badPoint] emptyDB =
      (emptyDB, some IngestError.validationError) :=
  (ingest_validation geoGrid parseTs0 60 7 15 [badPoint] emptyDB
    ⟨badPoint, List.mem_singleton_self _, by decide⟩).1

end GPSCorridor
